import Mathlib

/-
Verification of the sample-size calculator in
flock_ml/analysis/experimentation.py.

The module consists of two pure functions computing per-group sample
sizes for multi-group experiments with a Bonferroni pairwise correction:

  get_t_test_group_size_with_pairwise_correction(variance, delta, alpha, power, n_groups)
  get_proportion_test_group_size_with_pairwise_correction(p1, p2, alpha, power, n_groups)

Both first run a sequence of assert statements (a failed assert raises
AssertionError, the InvalidParameter failure of the spec), then evaluate a
closed-form formula built from the standard-normal quantile function
norm.ppf, scipy.special.comb and np.sqrt, and finally return
int(np.ceil(group_size)).

Embedding choices:
* Floating-point arithmetic is modelled by exact real arithmetic.
* The standard-normal quantile norm.ppf is transcendental, so it is an
  explicit parameter ppf of each embedded function.  Theorems constrain it
  only by true properties of the quantile function: strict monotonicity,
  the point symmetry ppf (1 - x) = -(ppf x), and published numeric values
  at the concrete probabilities a claim mentions.
* int(np.ceil(x)) is the integer ceiling when x is finite.  When the
  computed float is +-inf or nan (division by zero when delta = 0, or a
  quantile argument outside the open unit interval, where norm.ppf
  returns +-inf or nan), int() raises OverflowError / ValueError; this is
  the nonfiniteResult outcome below, distinct from a failed assert.
* scipy.special.comb(n, 2) is the binomial coefficient n.choose 2.
-/

namespace Experimentation

/-- Outcome of one call to either sample-size function: a failed assert
(the spec's InvalidParameter error), a non-finite float reaching the final
int() conversion (Python raises OverflowError or ValueError there), or a
normal return of an integer group size. -/
inductive SizeResult where
  | invalidParameter : SizeResult
  | nonfiniteResult : SizeResult
  | ok : ℤ → SizeResult

/-- True exactly when the call returned a group size (no error of either
kind was raised). -/
def SizeResult.isValue : SizeResult → Bool
  | SizeResult.ok _ => true
  | _ => false

/-- The integer returned by a successful call (0 for the error outcomes;
only ever read on results proved to be ok). -/
def SizeResult.val : SizeResult → ℤ
  | SizeResult.ok k => k
  | _ => 0

/-- Embedding of get_t_test_group_size_with_pairwise_correction.  The outer
condition is the conjunction of the four asserts (lines 29-32 of the
source); the inner condition states that every float fed to int(np.ceil _)
is finite: both norm.ppf arguments lie strictly inside the unit interval
(automatic here, given the asserts) and the divisor delta ** 2 is nonzero.
The returned value is
int(np.ceil((2*variance) * (ppf(1 - adjusted_alpha/2) + ppf(power))**2 / delta**2))
with adjusted_alpha = alpha / comb(n_groups, 2). -/
noncomputable def get_t_test_group_size_with_pairwise_correction
    (ppf : ℝ → ℝ) (variance delta alpha power : ℝ) (n_groups : ℕ) : SizeResult :=
  if 0 < variance ∧ (0 < alpha ∧ alpha < 1) ∧ (alpha < power ∧ power < 1) ∧ 2 ≤ n_groups then
    if 0 < 1 - alpha / (n_groups.choose 2 : ℝ) / 2 ∧
        1 - alpha / (n_groups.choose 2 : ℝ) / 2 < 1 ∧ 0 < power ∧ delta ≠ 0 then
      SizeResult.ok
        ⌈2 * variance * (ppf (1 - alpha / (n_groups.choose 2 : ℝ) / 2) + ppf power) ^ 2
          / delta ^ 2⌉
    else SizeResult.nonfiniteResult
  else SizeResult.invalidParameter

/-- Embedding of get_proportion_test_group_size_with_pairwise_correction.
The outer condition is the conjunction of the four asserts (lines 57-60 of
the source; note that, unlike the t-test function, alpha itself is never
range-checked).  The inner condition again states that the computed float
is finite: the quantile argument 1 - adjusted_alpha/2 lies strictly inside
the unit interval, power is positive (power < 1 is already asserted), and
the divisor |p2 - p1| is nonzero.  The returned value is
int(np.ceil(((ppf(1-adjusted_alpha/2)*sqrt(2*pbar*qbar)
  + ppf(power)*sqrt(p1*(1-p1)+p2*(1-p2))) / |p2-p1|)**2))
with pbar = (p1+p2)/2 and qbar = 1 - pbar. -/
noncomputable def get_proportion_test_group_size_with_pairwise_correction
    (ppf : ℝ → ℝ) (p1 p2 alpha power : ℝ) (n_groups : ℕ) : SizeResult :=
  if (0 < p1 ∧ p1 < 1) ∧ (0 < p2 ∧ p2 < 1) ∧ (alpha < power ∧ power < 1) ∧ 2 ≤ n_groups then
    if 0 < 1 - alpha / (n_groups.choose 2 : ℝ) / 2 ∧
        1 - alpha / (n_groups.choose 2 : ℝ) / 2 < 1 ∧ 0 < power ∧ p2 - p1 ≠ 0 then
      SizeResult.ok
        ⌈((ppf (1 - alpha / (n_groups.choose 2 : ℝ) / 2)
              * Real.sqrt (2 * ((p1 + p2) / 2) * (1 - (p1 + p2) / 2))
            + ppf power * Real.sqrt (p1 * (1 - p1) + p2 * (1 - p2)))
          / |p2 - p1|) ^ 2⌉
    else SizeResult.nonfiniteResult
  else SizeResult.invalidParameter

/-- Linear model of a quantile function, x mapsto c * (x - 1/2).  For c > 0
it is strictly monotone and satisfies the point symmetry of the
standard-normal quantile, so it instantiates every quantile hypothesis used
in this file. -/
noncomputable def linQuantile (c : ℝ) : ℝ → ℝ := fun x => c * (x - 1 / 2)

lemma linQuantile_strictMono {c : ℝ} (hc : 0 < c) : StrictMono (linQuantile c) := by
  intro a b h
  simp only [linQuantile]
  have := sub_lt_sub_right h (1 / 2)
  exact mul_lt_mul_of_pos_left this hc

lemma linQuantile_symm (c : ℝ) : ∀ x, linQuantile c (1 - x) = -linQuantile c x := by
  intro x
  simp only [linQuantile]
  ring

lemma one_le_choose_real {n : ℕ} (hn : 2 ≤ n) : (1 : ℝ) ≤ (n.choose 2 : ℝ) := by
  have : 0 < n.choose 2 := Nat.choose_pos hn
  exact_mod_cast this

lemma choose_pos_real {n : ℕ} (hn : 2 ≤ n) : (0 : ℝ) < (n.choose 2 : ℝ) :=
  lt_of_lt_of_le one_pos (one_le_choose_real hn)

lemma adjusted_le_alpha {alpha : ℝ} {n : ℕ} (ha : 0 ≤ alpha) (hn : 2 ≤ n) :
    alpha / (n.choose 2 : ℝ) ≤ alpha :=
  div_le_self ha (one_le_choose_real hn)

lemma adjusted_pos {alpha : ℝ} {n : ℕ} (ha : 0 < alpha) (hn : 2 ≤ n) :
    0 < alpha / (n.choose 2 : ℝ) :=
  div_pos ha (choose_pos_real hn)

/-- After the asserts of the t-test function, the finiteness guard reduces
to delta being nonzero: the quantile arguments always lie strictly inside
the unit interval. -/
lemma mean_guard {alpha power : ℝ} {n : ℕ} (ha0 : 0 < alpha) (ha1 : alpha < 1)
    (hap : alpha < power) (hn : 2 ≤ n) :
    0 < 1 - alpha / (n.choose 2 : ℝ) / 2 ∧
      1 - alpha / (n.choose 2 : ℝ) / 2 < 1 ∧ 0 < power := by
  have h1 := adjusted_le_alpha ha0.le hn
  have h2 := adjusted_pos ha0 hn
  refine ⟨by linarith, by linarith, lt_trans ha0 hap⟩

/-- Evaluation of the t-test function on inputs passing all asserts with
nonzero delta. -/
lemma mean_ok {ppf : ℝ → ℝ} {variance delta alpha power : ℝ} {n : ℕ}
    (hv : 0 < variance) (ha0 : 0 < alpha) (ha1 : alpha < 1) (hap : alpha < power)
    (hp1 : power < 1) (hn : 2 ≤ n) (hd : delta ≠ 0) :
    get_t_test_group_size_with_pairwise_correction ppf variance delta alpha power n =
      SizeResult.ok
        ⌈2 * variance * (ppf (1 - alpha / (n.choose 2 : ℝ) / 2) + ppf power) ^ 2
          / delta ^ 2⌉ := by
  obtain ⟨g1, g2, g3⟩ := mean_guard ha0 ha1 hap hn
  unfold get_t_test_group_size_with_pairwise_correction
  rw [if_pos ⟨hv, ⟨ha0, ha1⟩, ⟨hap, hp1⟩, hn⟩, if_pos ⟨g1, g2, g3, hd⟩]

/-- Evaluation of the proportion function on inputs passing all asserts,
with distinct proportions and a positive significance level. -/
lemma prop_ok {ppf : ℝ → ℝ} {p1 p2 alpha power : ℝ} {n : ℕ}
    (hp10 : 0 < p1) (hp11 : p1 < 1) (hp20 : 0 < p2) (hp21 : p2 < 1)
    (ha0 : 0 < alpha) (ha1 : alpha < 1) (hap : alpha < power) (hpw1 : power < 1)
    (hn : 2 ≤ n) (hne : p1 ≠ p2) :
    get_proportion_test_group_size_with_pairwise_correction ppf p1 p2 alpha power n =
      SizeResult.ok
        ⌈((ppf (1 - alpha / (n.choose 2 : ℝ) / 2)
              * Real.sqrt (2 * ((p1 + p2) / 2) * (1 - (p1 + p2) / 2))
            + ppf power * Real.sqrt (p1 * (1 - p1) + p2 * (1 - p2)))
          / |p2 - p1|) ^ 2⌉ := by
  obtain ⟨g1, g2, g3⟩ := mean_guard ha0 ha1 hap hn
  have hne' : p2 - p1 ≠ 0 := sub_ne_zero.mpr (Ne.symm hne)
  unfold get_proportion_test_group_size_with_pairwise_correction
  rw [if_pos ⟨⟨hp10, hp11⟩, ⟨hp20, hp21⟩, ⟨hap, hpw1⟩, hn⟩, if_pos ⟨g1, g2, g3, hne'⟩]

/-- C10: the t-test group size depends on delta only through its square:
negating delta leaves the result unchanged (here proved for every input,
in particular for every valid input with nonzero delta). -/
theorem claim_C10_delta_sign_invariance
    (ppf : ℝ → ℝ) (variance delta alpha power : ℝ) (n : ℕ) :
    get_t_test_group_size_with_pairwise_correction ppf variance delta alpha power n =
      get_t_test_group_size_with_pairwise_correction ppf variance (-delta) alpha power n := by
  unfold get_t_test_group_size_with_pairwise_correction
  simp only [neg_ne_zero, neg_sq]

/-- C7: the proportion group size is symmetric in the two proportions, for
every input whatsoever (in particular for all valid ones). -/
theorem claim_C7_symmetry
    (ppf : ℝ → ℝ) (p1 p2 alpha power : ℝ) (n : ℕ) :
    get_proportion_test_group_size_with_pairwise_correction ppf p1 p2 alpha power n =
      get_proportion_test_group_size_with_pairwise_correction ppf p2 p1 alpha power n := by
  unfold get_proportion_test_group_size_with_pairwise_correction
  have hc : ((0 < p1 ∧ p1 < 1) ∧ (0 < p2 ∧ p2 < 1) ∧ (alpha < power ∧ power < 1) ∧ 2 ≤ n) ↔
      ((0 < p2 ∧ p2 < 1) ∧ (0 < p1 ∧ p1 < 1) ∧ (alpha < power ∧ power < 1) ∧ 2 ≤ n) := by
    tauto
  have hg : (0 < 1 - alpha / (n.choose 2 : ℝ) / 2 ∧
        1 - alpha / (n.choose 2 : ℝ) / 2 < 1 ∧ 0 < power ∧ p2 - p1 ≠ 0) ↔
      (0 < 1 - alpha / (n.choose 2 : ℝ) / 2 ∧
        1 - alpha / (n.choose 2 : ℝ) / 2 < 1 ∧ 0 < power ∧ p1 - p2 ≠ 0) := by
    rw [sub_ne_zero, sub_ne_zero, ne_comm]
  have hv : (SizeResult.ok
        ⌈((ppf (1 - alpha / (n.choose 2 : ℝ) / 2)
              * Real.sqrt (2 * ((p1 + p2) / 2) * (1 - (p1 + p2) / 2))
            + ppf power * Real.sqrt (p1 * (1 - p1) + p2 * (1 - p2)))
          / |p2 - p1|) ^ 2⌉) =
      (SizeResult.ok
        ⌈((ppf (1 - alpha / (n.choose 2 : ℝ) / 2)
              * Real.sqrt (2 * ((p2 + p1) / 2) * (1 - (p2 + p1) / 2))
            + ppf power * Real.sqrt (p2 * (1 - p2) + p1 * (1 - p1)))
          / |p1 - p2|) ^ 2⌉) := by
    rw [add_comm p1 p2, abs_sub_comm p2 p1, add_comm (p1 * (1 - p1)) (p2 * (1 - p2))]
  exact if_congr hc (if_congr hg hv rfl) rfl

/-- C1: for every quantile model, variance > 0, nonzero delta, alpha strictly
between 0 and 1, power strictly between alpha and 1 and n_groups ≥ 2, the
t-test function returns exactly the ceiling of
(2 * variance * (ppf(1 - (alpha / C(n_groups,2)) / 2) + ppf(power))^2) / delta^2. -/
theorem claim_C1_mean_formula (ppf : ℝ → ℝ) (variance delta alpha power : ℝ) (n : ℕ)
    (hv : 0 < variance) (hd : delta ≠ 0) (ha0 : 0 < alpha) (ha1 : alpha < 1)
    (hap : alpha < power) (hp1 : power < 1) (hn : 2 ≤ n) :
    get_t_test_group_size_with_pairwise_correction ppf variance delta alpha power n =
      SizeResult.ok
        ⌈2 * variance * (ppf (1 - alpha / (n.choose 2 : ℝ) / 2) + ppf power) ^ 2
          / delta ^ 2⌉ :=
  mean_ok hv ha0 ha1 hap hp1 hn hd

/-- Witness for C1 at the concrete input variance = 1, delta = 1,
alpha = 1/4, power = 1/2, n_groups = 2, with the linear quantile model. -/
theorem claim_C1_mean_formula_witness :
    get_t_test_group_size_with_pairwise_correction (linQuantile 1) 1 1 (1/4) (1/2) 2 =
      SizeResult.ok
        ⌈2 * 1 * (linQuantile 1 (1 - (1/4) / ((2:ℕ).choose 2 : ℝ) / 2) + linQuantile 1 (1/2)) ^ 2
          / (1:ℝ) ^ 2⌉ :=
  claim_C1_mean_formula (linQuantile 1) 1 1 (1/4) (1/2) 2 (by norm_num) (by norm_num)
    (by norm_num) (by norm_num) (by norm_num) (by norm_num) (by norm_num)

/-- C2 counterexample: at p1 = 1/4, p2 = 1/2, power = 1/2 and n_groups = 2,
all inputs the claim quantifies over, the significance level alpha = 0
satisfies power ∈ (alpha, 1), yet the call does not return the ceiling of
the claimed formula (or any value at all): the quantile argument
1 - adjusted_alpha/2 equals 1, norm.ppf returns +inf, and the final int()
conversion fails. -/
theorem claim_C2_counterexample :
    get_proportion_test_group_size_with_pairwise_correction (linQuantile 1)
        (1/4) (1/2) 0 (1/2) 2 = SizeResult.nonfiniteResult ∧
    get_proportion_test_group_size_with_pairwise_correction (linQuantile 1)
        (1/4) (1/2) 0 (1/2) 2 ≠
      SizeResult.ok
        ⌈((linQuantile 1 (1 - 0 / ((2:ℕ).choose 2 : ℝ) / 2)
              * Real.sqrt (2 * ((1/4 + 1/2) / 2) * (1 - (1/4 + 1/2) / 2))
            + linQuantile 1 (1/2) * Real.sqrt (1/4 * (1 - 1/4) + 1/2 * (1 - 1/2)))
          / |1/2 - 1/4|) ^ 2⌉ := by
  have h : get_proportion_test_group_size_with_pairwise_correction (linQuantile 1)
      (1/4) (1/2) 0 (1/2) 2 = SizeResult.nonfiniteResult := by
    unfold get_proportion_test_group_size_with_pairwise_correction
    rw [if_pos (by norm_num), if_neg (by norm_num)]
  exact ⟨h, by rw [h]; intro hcontra; exact SizeResult.noConfusion hcontra⟩

/-- C2 (amended): the claimed closed form holds once alpha is additionally
required to be positive (for alpha ≤ 0 the quantile argument leaves the
unit interval and the call fails instead of returning a value; the source
never range-checks alpha in this function). -/
theorem claim_C2_prop_formula (ppf : ℝ → ℝ) (p1 p2 alpha power : ℝ) (n : ℕ)
    (hp10 : 0 < p1) (hp11 : p1 < 1) (hp20 : 0 < p2) (hp21 : p2 < 1) (hne : p1 ≠ p2)
    (ha0 : 0 < alpha) (hap : alpha < power) (hpw1 : power < 1) (hn : 2 ≤ n) :
    get_proportion_test_group_size_with_pairwise_correction ppf p1 p2 alpha power n =
      SizeResult.ok
        ⌈((ppf (1 - alpha / (n.choose 2 : ℝ) / 2)
              * Real.sqrt (2 * ((p1 + p2) / 2) * (1 - (p1 + p2) / 2))
            + ppf power * Real.sqrt (p1 * (1 - p1) + p2 * (1 - p2)))
          / |p2 - p1|) ^ 2⌉ :=
  prop_ok hp10 hp11 hp20 hp21 ha0 (lt_trans hap hpw1) hap hpw1 hn hne

/-- Witness for the amended C2 at p1 = 1/4, p2 = 1/2, alpha = 1/4,
power = 1/2, n_groups = 2, with the linear quantile model. -/
theorem claim_C2_prop_formula_witness :
    get_proportion_test_group_size_with_pairwise_correction (linQuantile 1)
        (1/4) (1/2) (1/4) (1/2) 2 =
      SizeResult.ok
        ⌈((linQuantile 1 (1 - (1/4) / ((2:ℕ).choose 2 : ℝ) / 2)
              * Real.sqrt (2 * ((1/4 + 1/2) / 2) * (1 - (1/4 + 1/2) / 2))
            + linQuantile 1 (1/2) * Real.sqrt (1/4 * (1 - 1/4) + 1/2 * (1 - 1/2)))
          / |1/2 - 1/4|) ^ 2⌉ :=
  claim_C2_prop_formula (linQuantile 1) (1/4) (1/2) (1/4) (1/2) 2 (by norm_num)
    (by norm_num) (by norm_num) (by norm_num) (by norm_num) (by norm_num)
    (by norm_num) (by norm_num) (by norm_num)

/-- C3 counterexample: delta = 0 with variance = 1, alpha = 1/4,
power = 1/2, n_groups = 2 satisfies every condition the claim lists, yet
the call returns no value: the division by delta^2 = 0 produces an
infinite float and the final int() conversion fails (with an error that is
not the InvalidParameter assert failure). -/
theorem claim_C3_counterexample :
    get_t_test_group_size_with_pairwise_correction (linQuantile 1) 1 0 (1/4) (1/2) 2 =
      SizeResult.nonfiniteResult ∧
    get_t_test_group_size_with_pairwise_correction (linQuantile 1) 1 0 (1/4) (1/2) 2 ≠
      SizeResult.invalidParameter ∧
    (get_t_test_group_size_with_pairwise_correction (linQuantile 1) 1 0 (1/4) (1/2) 2).isValue
      = false := by
  have h : get_t_test_group_size_with_pairwise_correction (linQuantile 1) 1 0 (1/4) (1/2) 2 =
      SizeResult.nonfiniteResult := by
    unfold get_t_test_group_size_with_pairwise_correction
    rw [if_pos (by norm_num), if_neg (by norm_num)]
  exact ⟨h, by rw [h]; intro hc; exact SizeResult.noConfusion hc, by rw [h]; rfl⟩

/-- C3 (amended): the t-test function fails with InvalidParameter exactly
when variance ≤ 0, alpha is not strictly between 0 and 1, power is not
strictly between alpha and 1, or n_groups < 2; and on every input
satisfying those conditions that moreover has delta ≠ 0 it returns a value
rather than an error (for delta = 0 it fails, but not with
InvalidParameter). -/
theorem claim_C3_invalid_parameter_iff (ppf : ℝ → ℝ) (variance delta alpha power : ℝ) (n : ℕ) :
    (get_t_test_group_size_with_pairwise_correction ppf variance delta alpha power n =
        SizeResult.invalidParameter ↔
      ¬(0 < variance ∧ (0 < alpha ∧ alpha < 1) ∧ (alpha < power ∧ power < 1) ∧ 2 ≤ n)) ∧
    ((0 < variance ∧ (0 < alpha ∧ alpha < 1) ∧ (alpha < power ∧ power < 1) ∧ 2 ≤ n) →
      delta ≠ 0 →
      (get_t_test_group_size_with_pairwise_correction ppf variance delta alpha power n).isValue
        = true) := by
  constructor
  · constructor
    · intro h hcond
      unfold get_t_test_group_size_with_pairwise_correction at h
      rw [if_pos hcond] at h
      by_cases hg : 0 < 1 - alpha / (n.choose 2 : ℝ) / 2 ∧
          1 - alpha / (n.choose 2 : ℝ) / 2 < 1 ∧ 0 < power ∧ delta ≠ 0
      · rw [if_pos hg] at h
        exact SizeResult.noConfusion h
      · rw [if_neg hg] at h
        exact SizeResult.noConfusion h
    · intro h
      unfold get_t_test_group_size_with_pairwise_correction
      rw [if_neg h]
  · rintro ⟨hv, ⟨ha0, ha1⟩, ⟨hap, hp1⟩, hn⟩ hd
    rw [mean_ok hv ha0 ha1 hap hp1 hn hd]
    rfl

/-- Witness for the amended C3 at variance = 1, delta = 1, alpha = 1/4,
power = 1/2, n_groups = 2: the conditions hold, delta is nonzero, and the
call returns a value. -/
theorem claim_C3_invalid_parameter_iff_witness :
    (get_t_test_group_size_with_pairwise_correction (linQuantile 1) 1 1 (1/4) (1/2) 2).isValue
      = true :=
  (claim_C3_invalid_parameter_iff (linQuantile 1) 1 1 (1/4) (1/2) 2).2 (by norm_num)
    (by norm_num)

/-- C4 counterexample: with p1 = 1/4, p2 = 1/2, power = 1/2, n_groups = 2
all valid, calling the proportion function with alpha = 0 does not raise
InvalidParameter: every assert passes (the source never checks alpha
itself there), the quantile is evaluated at 1, and the call fails only at
the final int() conversion. -/
theorem claim_C4_counterexample :
    get_proportion_test_group_size_with_pairwise_correction (linQuantile 1)
        (1/4) (1/2) 0 (1/2) 2 ≠ SizeResult.invalidParameter ∧
    get_proportion_test_group_size_with_pairwise_correction (linQuantile 1)
        (1/4) (1/2) 0 (1/2) 2 = SizeResult.nonfiniteResult := by
  have h : get_proportion_test_group_size_with_pairwise_correction (linQuantile 1)
      (1/4) (1/2) 0 (1/2) 2 = SizeResult.nonfiniteResult := by
    unfold get_proportion_test_group_size_with_pairwise_correction
    rw [if_pos (by norm_num), if_neg (by norm_num)]
  exact ⟨by rw [h]; intro hc; exact SizeResult.noConfusion hc, h⟩

/-- C4 (amended): every boundary case the spec lists raises
InvalidParameter - variance = 0 (mean), alpha = 0 or 1 (mean), alpha = 1
(proportion), power ≤ alpha (both), n_groups = 1 (both), p1 = 0 or 1
(proportion) - except that the proportion function called with alpha = 0
and otherwise-valid parameters does not raise InvalidParameter: it passes
every assert and fails only at the final int() conversion
(nonfiniteResult). -/
theorem claim_C4_boundary_cases :
    (∀ (ppf : ℝ → ℝ) (delta alpha power : ℝ) (n : ℕ),
      get_t_test_group_size_with_pairwise_correction ppf 0 delta alpha power n =
        SizeResult.invalidParameter) ∧
    (∀ (ppf : ℝ → ℝ) (variance delta power : ℝ) (n : ℕ),
      get_t_test_group_size_with_pairwise_correction ppf variance delta 0 power n =
        SizeResult.invalidParameter) ∧
    (∀ (ppf : ℝ → ℝ) (variance delta power : ℝ) (n : ℕ),
      get_t_test_group_size_with_pairwise_correction ppf variance delta 1 power n =
        SizeResult.invalidParameter) ∧
    (∀ (ppf : ℝ → ℝ) (p1 p2 power : ℝ) (n : ℕ),
      get_proportion_test_group_size_with_pairwise_correction ppf p1 p2 1 power n =
        SizeResult.invalidParameter) ∧
    (∀ (ppf : ℝ → ℝ) (variance delta alpha power : ℝ) (n : ℕ), power ≤ alpha →
      get_t_test_group_size_with_pairwise_correction ppf variance delta alpha power n =
        SizeResult.invalidParameter) ∧
    (∀ (ppf : ℝ → ℝ) (p1 p2 alpha power : ℝ) (n : ℕ), power ≤ alpha →
      get_proportion_test_group_size_with_pairwise_correction ppf p1 p2 alpha power n =
        SizeResult.invalidParameter) ∧
    (∀ (ppf : ℝ → ℝ) (variance delta alpha power : ℝ),
      get_t_test_group_size_with_pairwise_correction ppf variance delta alpha power 1 =
        SizeResult.invalidParameter) ∧
    (∀ (ppf : ℝ → ℝ) (p1 p2 alpha power : ℝ),
      get_proportion_test_group_size_with_pairwise_correction ppf p1 p2 alpha power 1 =
        SizeResult.invalidParameter) ∧
    (∀ (ppf : ℝ → ℝ) (p2 alpha power : ℝ) (n : ℕ),
      get_proportion_test_group_size_with_pairwise_correction ppf 0 p2 alpha power n =
        SizeResult.invalidParameter) ∧
    (∀ (ppf : ℝ → ℝ) (p2 alpha power : ℝ) (n : ℕ),
      get_proportion_test_group_size_with_pairwise_correction ppf 1 p2 alpha power n =
        SizeResult.invalidParameter) ∧
    (∀ (ppf : ℝ → ℝ) (p1 p2 power : ℝ) (n : ℕ),
      0 < p1 → p1 < 1 → 0 < p2 → p2 < 1 → 0 < power → power < 1 → 2 ≤ n →
      get_proportion_test_group_size_with_pairwise_correction ppf p1 p2 0 power n =
        SizeResult.nonfiniteResult) := by
  refine ⟨?_, ?_, ?_, ?_, ?_, ?_, ?_, ?_, ?_, ?_, ?_⟩
  · intro ppf delta alpha power n
    unfold get_t_test_group_size_with_pairwise_correction
    rw [if_neg (fun h => lt_irrefl 0 h.1)]
  · intro ppf variance delta power n
    unfold get_t_test_group_size_with_pairwise_correction
    rw [if_neg (fun h => lt_irrefl 0 h.2.1.1)]
  · intro ppf variance delta power n
    unfold get_t_test_group_size_with_pairwise_correction
    rw [if_neg (fun h => lt_irrefl 1 h.2.1.2)]
  · intro ppf p1 p2 power n
    unfold get_proportion_test_group_size_with_pairwise_correction
    rw [if_neg (fun h => lt_irrefl 1 (lt_trans h.2.2.1.1 h.2.2.1.2))]
  · intro ppf variance delta alpha power n hpa
    unfold get_t_test_group_size_with_pairwise_correction
    rw [if_neg (fun h => absurd h.2.2.1.1 (not_lt.2 hpa))]
  · intro ppf p1 p2 alpha power n hpa
    unfold get_proportion_test_group_size_with_pairwise_correction
    rw [if_neg (fun h => absurd h.2.2.1.1 (not_lt.2 hpa))]
  · intro ppf variance delta alpha power
    unfold get_t_test_group_size_with_pairwise_correction
    rw [if_neg (fun h => by omega)]
  · intro ppf p1 p2 alpha power
    unfold get_proportion_test_group_size_with_pairwise_correction
    rw [if_neg (fun h => by omega)]
  · intro ppf p2 alpha power n
    unfold get_proportion_test_group_size_with_pairwise_correction
    rw [if_neg (fun h => lt_irrefl 0 h.1.1)]
  · intro ppf p2 alpha power n
    unfold get_proportion_test_group_size_with_pairwise_correction
    rw [if_neg (fun h => lt_irrefl 1 h.1.2)]
  · intro ppf p1 p2 power n hp10 hp11 hp20 hp21 hpw0 hpw1 hn
    unfold get_proportion_test_group_size_with_pairwise_correction
    rw [if_pos ⟨⟨hp10, hp11⟩, ⟨hp20, hp21⟩, ⟨hpw0, hpw1⟩, hn⟩,
      if_neg (fun hg => by simp at hg)]

/-- Witness for the amended C4: two representative concrete boundary calls,
obtained by instantiating the theorem - n_groups = 1 raises
InvalidParameter, and the proportion function at alpha = 0 with otherwise
valid inputs fails without raising InvalidParameter. -/
theorem claim_C4_boundary_cases_witness :
    get_t_test_group_size_with_pairwise_correction (linQuantile 1) 1 1 (1/4) (1/2) 1 =
      SizeResult.invalidParameter ∧
    get_proportion_test_group_size_with_pairwise_correction (linQuantile 1)
        (1/4) (1/2) 0 (1/2) 2 = SizeResult.nonfiniteResult :=
  ⟨claim_C4_boundary_cases.2.2.2.2.2.2.1 (linQuantile 1) 1 1 (1/4) (1/2),
   claim_C4_boundary_cases.2.2.2.2.2.2.2.2.2.2 (linQuantile 1) (1/4) (1/2) (1/2) 2
     (by norm_num) (by norm_num) (by norm_num) (by norm_num) (by norm_num)
     (by norm_num) (by norm_num)⟩

/-- C9: delta receives no validation at all in the t-test function - with
every asserted parameter valid and delta = 0, every assert passes (the
result is not InvalidParameter) and the computation divides by
delta^2 = 0, failing at the final int() conversion; and the guarded
division-error branch is unreachable exactly under the unstated extra
precondition delta ≠ 0, in which case a value is returned. -/
theorem claim_C9_delta_unvalidated (ppf : ℝ → ℝ) (variance alpha power : ℝ) (n : ℕ)
    (hv : 0 < variance) (ha0 : 0 < alpha) (ha1 : alpha < 1) (hap : alpha < power)
    (hp1 : power < 1) (hn : 2 ≤ n) :
    get_t_test_group_size_with_pairwise_correction ppf variance 0 alpha power n =
      SizeResult.nonfiniteResult ∧
    get_t_test_group_size_with_pairwise_correction ppf variance 0 alpha power n ≠
      SizeResult.invalidParameter ∧
    (∀ delta : ℝ, delta ≠ 0 →
      (get_t_test_group_size_with_pairwise_correction ppf variance delta alpha power n).isValue
        = true) := by
  have h : get_t_test_group_size_with_pairwise_correction ppf variance 0 alpha power n =
      SizeResult.nonfiniteResult := by
    unfold get_t_test_group_size_with_pairwise_correction
    rw [if_pos ⟨hv, ⟨ha0, ha1⟩, ⟨hap, hp1⟩, hn⟩, if_neg (fun hg => hg.2.2.2 rfl)]
  refine ⟨h, by rw [h]; intro hc; exact SizeResult.noConfusion hc, ?_⟩
  intro delta hd
  rw [mean_ok hv ha0 ha1 hap hp1 hn hd]
  rfl

/-- Witness for C9 at variance = 1, alpha = 1/4, power = 1/2, n_groups = 2
with the linear quantile model. -/
theorem claim_C9_delta_unvalidated_witness :
    get_t_test_group_size_with_pairwise_correction (linQuantile 1) 1 0 (1/4) (1/2) 2 =
      SizeResult.nonfiniteResult ∧
    (get_t_test_group_size_with_pairwise_correction (linQuantile 1) 1 1 (1/4) (1/2) 2).isValue
      = true := by
  have h := claim_C9_delta_unvalidated (linQuantile 1) 1 (1/4) (1/2) 2 (by norm_num)
    (by norm_num) (by norm_num) (by norm_num) (by norm_num) (by norm_num)
  exact ⟨h.1, h.2.2 1 (by norm_num)⟩

lemma ppf_half_eq_zero {ppf : ℝ → ℝ} (hsym : ∀ x, ppf (1 - x) = -ppf x) :
    ppf (1/2) = 0 := by
  have h := hsym (1/2)
  rw [show (1:ℝ) - 1/2 = 1/2 by norm_num] at h
  linarith

lemma ppf_nonneg_of_half_le {ppf : ℝ → ℝ} (hm : Monotone ppf)
    (hsym : ∀ x, ppf (1 - x) = -ppf x) {t : ℝ} (ht : 1/2 ≤ t) : 0 ≤ ppf t := by
  have h := hm ht
  rw [ppf_half_eq_zero hsym] at h
  exact h

lemma ppf_pos_of_half_lt {ppf : ℝ → ℝ} (hm : StrictMono ppf)
    (hsym : ∀ x, ppf (1 - x) = -ppf x) {t : ℝ} (ht : 1/2 < t) : 0 < ppf t := by
  have h := hm ht
  rw [ppf_half_eq_zero hsym] at h
  exact h

/-- Sum of the two quantile values used by both formulas is nonnegative:
ppf power dominates -ppf (1 - adjusted_alpha/2) because
power > alpha ≥ adjusted_alpha ≥ adjusted_alpha / 2. -/
lemma z_sum_nonneg {ppf : ℝ → ℝ} (hm : Monotone ppf)
    (hsym : ∀ x, ppf (1 - x) = -ppf x) {alpha power : ℝ} {n : ℕ}
    (ha0 : 0 < alpha) (hap : alpha < power) (hn : 2 ≤ n) :
    0 ≤ ppf (1 - alpha / (n.choose 2 : ℝ) / 2) + ppf power := by
  have hadj0 := adjusted_pos ha0 hn
  have hadj1 := adjusted_le_alpha ha0.le hn
  have h1 : ppf (alpha / (n.choose 2 : ℝ) / 2) ≤ ppf power := hm (by linarith)
  have h2 : ppf (1 - alpha / (n.choose 2 : ℝ) / 2) = -ppf (alpha / (n.choose 2 : ℝ) / 2) :=
    hsym _
  linarith

/-- Strict version of the quantile-sum bound. -/
lemma z_sum_pos {ppf : ℝ → ℝ} (hm : StrictMono ppf)
    (hsym : ∀ x, ppf (1 - x) = -ppf x) {alpha power : ℝ} {n : ℕ}
    (ha0 : 0 < alpha) (hap : alpha < power) (hn : 2 ≤ n) :
    0 < ppf (1 - alpha / (n.choose 2 : ℝ) / 2) + ppf power := by
  have hadj0 := adjusted_pos ha0 hn
  have hadj1 := adjusted_le_alpha ha0.le hn
  have h1 : ppf (alpha / (n.choose 2 : ℝ) / 2) < ppf power := hm (by linarith)
  have h2 : ppf (1 - alpha / (n.choose 2 : ℝ) / 2) = -ppf (alpha / (n.choose 2 : ℝ) / 2) :=
    hsym _
  linarith

/-- Pooled-variance bound: 2*pbar*qbar dominates p1*q1 + p2*q2 (their
difference is (p1-p2)^2/2). -/
lemma pooled_ge (p1 p2 : ℝ) :
    p1 * (1 - p1) + p2 * (1 - p2) ≤ 2 * ((p1 + p2) / 2) * (1 - (p1 + p2) / 2) := by
  nlinarith [sq_nonneg (p1 - p2)]

lemma pooled_gt {p1 p2 : ℝ} (hne : p1 ≠ p2) :
    p1 * (1 - p1) + p2 * (1 - p2) < 2 * ((p1 + p2) / 2) * (1 - (p1 + p2) / 2) := by
  have h : p1 - p2 ≠ 0 := sub_ne_zero.mpr hne
  have h2 : 0 < (p1 - p2) ^ 2 := lt_of_le_of_ne (sq_nonneg _) (Ne.symm (pow_ne_zero 2 h))
  nlinarith

lemma indiv_var_nonneg {p1 p2 : ℝ} (hp10 : 0 < p1) (hp11 : p1 < 1)
    (hp20 : 0 < p2) (hp21 : p2 < 1) :
    0 ≤ p1 * (1 - p1) + p2 * (1 - p2) := by nlinarith

/-- Numerator of the proportion formula is nonnegative for valid inputs
under monotonicity and point symmetry of the quantile model. -/
lemma prop_num_nonneg {ppf : ℝ → ℝ} (hm : Monotone ppf)
    (hsym : ∀ x, ppf (1 - x) = -ppf x) {p1 p2 alpha power : ℝ} {n : ℕ}
    (ha0 : 0 < alpha) (ha1 : alpha < 1) (hap : alpha < power) (hn : 2 ≤ n) :
    0 ≤ ppf (1 - alpha / (n.choose 2 : ℝ) / 2)
          * Real.sqrt (2 * ((p1 + p2) / 2) * (1 - (p1 + p2) / 2))
        + ppf power * Real.sqrt (p1 * (1 - p1) + p2 * (1 - p2)) := by
  have hadj0 := adjusted_pos ha0 hn
  have hadj1 := adjusted_le_alpha ha0.le hn
  have hz1 : 0 ≤ ppf (1 - alpha / (n.choose 2 : ℝ) / 2) :=
    ppf_nonneg_of_half_le hm hsym (by linarith)
  have hsum := z_sum_nonneg hm hsym ha0 hap hn
  have hs12 : Real.sqrt (p1 * (1 - p1) + p2 * (1 - p2)) ≤
      Real.sqrt (2 * ((p1 + p2) / 2) * (1 - (p1 + p2) / 2)) :=
    Real.sqrt_le_sqrt (pooled_ge p1 p2)
  have hs2 : 0 ≤ Real.sqrt (p1 * (1 - p1) + p2 * (1 - p2)) := Real.sqrt_nonneg _
  have hmul := mul_le_mul_of_nonneg_left hs12 hz1
  have hmul2 := mul_nonneg hsum hs2
  nlinarith

/-- Strict version: for distinct valid proportions the numerator is
strictly positive. -/
lemma prop_num_pos {ppf : ℝ → ℝ} (hm : StrictMono ppf)
    (hsym : ∀ x, ppf (1 - x) = -ppf x) {p1 p2 alpha power : ℝ} {n : ℕ}
    (hp10 : 0 < p1) (hp11 : p1 < 1) (hp20 : 0 < p2) (hp21 : p2 < 1) (hne : p1 ≠ p2)
    (ha0 : 0 < alpha) (ha1 : alpha < 1) (hap : alpha < power) (hn : 2 ≤ n) :
    0 < ppf (1 - alpha / (n.choose 2 : ℝ) / 2)
          * Real.sqrt (2 * ((p1 + p2) / 2) * (1 - (p1 + p2) / 2))
        + ppf power * Real.sqrt (p1 * (1 - p1) + p2 * (1 - p2)) := by
  have hadj0 := adjusted_pos ha0 hn
  have hadj1 := adjusted_le_alpha ha0.le hn
  have hz1 : 0 < ppf (1 - alpha / (n.choose 2 : ℝ) / 2) :=
    ppf_pos_of_half_lt hm hsym (by linarith)
  have hsum := z_sum_pos hm hsym ha0 hap hn
  have hs12 : Real.sqrt (p1 * (1 - p1) + p2 * (1 - p2)) <
      Real.sqrt (2 * ((p1 + p2) / 2) * (1 - (p1 + p2) / 2)) :=
    Real.sqrt_lt_sqrt (indiv_var_nonneg hp10 hp11 hp20 hp21) (pooled_gt hne)
  have hs2 : 0 ≤ Real.sqrt (p1 * (1 - p1) + p2 * (1 - p2)) := Real.sqrt_nonneg _
  have hmul := mul_lt_mul_of_pos_left hs12 hz1
  have hmul2 := mul_nonneg hsum.le hs2
  nlinarith

lemma sq_pos_of_ne {d : ℝ} (hd : d ≠ 0) : 0 < d ^ 2 :=
  lt_of_le_of_ne (sq_nonneg d) (Ne.symm (pow_ne_zero 2 hd))

/-- C5 counterexample: with the admissible linear quantile model, three
inputs satisfying the claim's stated preconditions return no integer at
all - the mean comparison with delta = 0, the proportion comparison with
p1 = p2 (division by zero), and the proportion comparison with alpha = 0
(quantile evaluated at 1).  In each case the computation fails at the
final int() conversion. -/
theorem claim_C5_counterexample :
    StrictMono (linQuantile 1) ∧ (∀ x, linQuantile 1 (1 - x) = -linQuantile 1 x) ∧
    get_t_test_group_size_with_pairwise_correction (linQuantile 1) 1 0 (1/4) (1/2) 2 =
      SizeResult.nonfiniteResult ∧
    get_proportion_test_group_size_with_pairwise_correction (linQuantile 1)
        (1/2) (1/2) (1/4) (3/4) 2 = SizeResult.nonfiniteResult ∧
    get_proportion_test_group_size_with_pairwise_correction (linQuantile 1)
        (1/4) (1/2) 0 (3/4) 2 = SizeResult.nonfiniteResult := by
  refine ⟨linQuantile_strictMono one_pos, linQuantile_symm 1, ?_, ?_, ?_⟩
  · unfold get_t_test_group_size_with_pairwise_correction
    rw [if_pos (by norm_num), if_neg (by norm_num)]
  · unfold get_proportion_test_group_size_with_pairwise_correction
    rw [if_pos (by norm_num), if_neg (by norm_num)]
  · unfold get_proportion_test_group_size_with_pairwise_correction
    rw [if_pos (by norm_num), if_neg (by norm_num)]

/-- C5 (amended): for any strictly monotone, point-symmetric quantile
model, both operations return a strictly positive integer on all valid
inputs, where validity additionally includes delta ≠ 0 for the mean
comparison and p1 ≠ p2 together with 0 < alpha for the proportion
comparison (without these the call fails instead of returning a value). -/
theorem claim_C5_positive (ppf : ℝ → ℝ) (hm : StrictMono ppf)
    (hsym : ∀ x, ppf (1 - x) = -ppf x) :
    (∀ (variance delta alpha power : ℝ) (n : ℕ),
      0 < variance → 0 < alpha → alpha < 1 → alpha < power → power < 1 → 2 ≤ n → delta ≠ 0 →
      (get_t_test_group_size_with_pairwise_correction ppf variance delta alpha power n).isValue
          = true ∧
        0 < (get_t_test_group_size_with_pairwise_correction ppf variance delta alpha power n).val) ∧
    (∀ (p1 p2 alpha power : ℝ) (n : ℕ),
      0 < p1 → p1 < 1 → 0 < p2 → p2 < 1 → p1 ≠ p2 →
      0 < alpha → alpha < power → power < 1 → 2 ≤ n →
      (get_proportion_test_group_size_with_pairwise_correction ppf p1 p2 alpha power n).isValue
          = true ∧
        0 < (get_proportion_test_group_size_with_pairwise_correction ppf p1 p2 alpha power n).val) := by
  constructor
  · intro variance delta alpha power n hv ha0 ha1 hap hp1 hn hd
    rw [mean_ok hv ha0 ha1 hap hp1 hn hd]
    refine ⟨rfl, ?_⟩
    have hsum := z_sum_pos hm hsym ha0 hap hn
    have hnum : 0 < 2 * variance *
        (ppf (1 - alpha / (n.choose 2 : ℝ) / 2) + ppf power) ^ 2 :=
      mul_pos (by linarith) (pow_pos hsum 2)
    have hval : 0 < 2 * variance *
        (ppf (1 - alpha / (n.choose 2 : ℝ) / 2) + ppf power) ^ 2 / delta ^ 2 :=
      div_pos hnum (sq_pos_of_ne hd)
    simpa [SizeResult.val] using Int.ceil_pos.mpr hval
  · intro p1 p2 alpha power n hp10 hp11 hp20 hp21 hne ha0 hap hpw1 hn
    have ha1 : alpha < 1 := lt_trans hap hpw1
    rw [prop_ok hp10 hp11 hp20 hp21 ha0 ha1 hap hpw1 hn hne]
    refine ⟨rfl, ?_⟩
    have hnum := prop_num_pos hm hsym hp10 hp11 hp20 hp21 hne ha0 ha1 hap hn
    have habs : 0 < |p2 - p1| :=
      abs_pos.mpr (sub_ne_zero.mpr (Ne.symm hne))
    have hval : 0 < ((ppf (1 - alpha / (n.choose 2 : ℝ) / 2)
          * Real.sqrt (2 * ((p1 + p2) / 2) * (1 - (p1 + p2) / 2))
        + ppf power * Real.sqrt (p1 * (1 - p1) + p2 * (1 - p2))) / |p2 - p1|) ^ 2 :=
      pow_pos (div_pos hnum habs) 2
    simpa [SizeResult.val] using Int.ceil_pos.mpr hval

/-- Witness for the amended C5: both operations applied with the linear
quantile model at concrete valid inputs return a value, and that value is
strictly positive. -/
theorem claim_C5_positive_witness :
    ((get_t_test_group_size_with_pairwise_correction (linQuantile 1) 1 1 (1/4) (1/2) 2).isValue
        = true ∧
      0 < (get_t_test_group_size_with_pairwise_correction (linQuantile 1) 1 1 (1/4) (1/2) 2).val) ∧
    ((get_proportion_test_group_size_with_pairwise_correction (linQuantile 1)
          (1/4) (1/2) (1/4) (1/2) 2).isValue = true ∧
      0 < (get_proportion_test_group_size_with_pairwise_correction (linQuantile 1)
          (1/4) (1/2) (1/4) (1/2) 2).val) := by
  have h := claim_C5_positive (linQuantile 1) (linQuantile_strictMono one_pos)
    (linQuantile_symm 1)
  exact ⟨h.1 1 1 (1/4) (1/2) 2 (by norm_num) (by norm_num) (by norm_num) (by norm_num)
      (by norm_num) (by norm_num) (by norm_num),
    h.2 (1/4) (1/2) (1/4) (1/2) 2 (by norm_num) (by norm_num) (by norm_num) (by norm_num)
      (by norm_num) (by norm_num) (by norm_num) (by norm_num) (by norm_num)⟩

/-- Step-function quantile model taking the textbook standard-normal
values 0.8416, 1.96 and 2.6 at the probabilities 0.8, 0.975 and 239/240
used by the two concrete calls of C8. -/
noncomputable def ppf0 : ℝ → ℝ := fun x =>
  if x < 9/10 then 1052/1250 else if x < 99/100 then 49/25 else 13/5

/-- C8: with the quantile pinned to its true standard-normal values
(Phi^-1(0.975) = 1.95996... bracketed in [1.9599, 1.96],
Phi^-1(0.8) = 0.84162... bracketed in [0.8416, 0.8417], and
Phi^-1(239/240) = 2.638... ≥ 2.6), the call
(variance = 4, delta = 1, alpha = 0.05, power = 0.8, n_groups = 2)
returns exactly 63, and the same call with n_groups = 4 returns a value
strictly greater than 63. -/
theorem claim_C8_concrete_scenarios (ppf : ℝ → ℝ)
    (h1l : 19599/10000 ≤ ppf (39/40)) (h1u : ppf (39/40) ≤ 196/100)
    (h2l : 8416/10000 ≤ ppf (4/5)) (h2u : ppf (4/5) ≤ 8417/10000)
    (h3 : 26/10 ≤ ppf (239/240)) :
    get_t_test_group_size_with_pairwise_correction ppf 4 1 (1/20) (4/5) 2 =
      SizeResult.ok 63 ∧
    63 < (get_t_test_group_size_with_pairwise_correction ppf 4 1 (1/20) (4/5) 4).val := by
  have e2 : ((2:ℕ).choose 2 : ℝ) = 1 := by rw [Nat.choose_self]; norm_num
  have e4c : (4:ℕ).choose 2 = 6 := rfl
  have e4 : ((4:ℕ).choose 2 : ℝ) = 6 := by rw [e4c]; norm_num
  constructor
  · rw [mean_ok (by norm_num) (by norm_num) (by norm_num) (by norm_num) (by norm_num)
      (by norm_num) (by norm_num)]
    have harg : (1 : ℝ) - (1/20) / ((2:ℕ).choose 2 : ℝ) / 2 = 39/40 := by
      rw [e2]; norm_num
    rw [harg]
    congr 1
    rw [Int.ceil_eq_iff]
    have hs : (19599:ℝ)/10000 + 8416/10000 ≤ ppf (39/40) + ppf (4/5) := add_le_add h1l h2l
    have hs' : ppf (39/40) + ppf (4/5) ≤ (196:ℝ)/100 + 8417/10000 := add_le_add h1u h2u
    have hpos : (0:ℝ) ≤ ppf (39/40) + ppf (4/5) := le_trans (by norm_num) hs
    constructor
    · push_cast
      nlinarith [hs, hpos]
    · push_cast
      nlinarith [hs', hpos]
  · rw [mean_ok (by norm_num) (by norm_num) (by norm_num) (by norm_num) (by norm_num)
      (by norm_num) (by norm_num)]
    have harg : (1 : ℝ) - (1/20) / ((4:ℕ).choose 2 : ℝ) / 2 = 239/240 := by
      rw [e4]; norm_num
    rw [harg]
    show (63:ℤ) < ⌈2 * 4 * (ppf (239/240) + ppf (4/5)) ^ 2 / (1:ℝ) ^ 2⌉
    rw [Int.lt_ceil]
    have hs4 : (26:ℝ)/10 + 8416/10000 ≤ ppf (239/240) + ppf (4/5) := add_le_add h3 h2l
    have hpos4 : (0:ℝ) ≤ ppf (239/240) + ppf (4/5) := le_trans (by norm_num) hs4
    push_cast
    nlinarith [hs4, hpos4]

/-- Witness for C8: the step-function model ppf0 satisfies every numeric
bracket, and on it the two concrete calls indeed return 63 and a value
greater than 63. -/
theorem claim_C8_concrete_scenarios_witness :
    get_t_test_group_size_with_pairwise_correction ppf0 4 1 (1/20) (4/5) 2 =
      SizeResult.ok 63 ∧
    63 < (get_t_test_group_size_with_pairwise_correction ppf0 4 1 (1/20) (4/5) 4).val :=
  claim_C8_concrete_scenarios ppf0 (by norm_num [ppf0]) (by norm_num [ppf0])
    (by norm_num [ppf0]) (by norm_num [ppf0]) (by norm_num [ppf0])

lemma sq_pos_of_ne_aux {d : ℝ} (hd : d ≠ 0) : d ^ 2 ≠ 0 := pow_ne_zero 2 hd

/-- Monotonicity of the t-test group size in power. -/
lemma mean_val_mono_power {ppf : ℝ → ℝ} (hm : Monotone ppf)
    (hsym : ∀ x, ppf (1 - x) = -ppf x) {variance delta alpha power power' : ℝ} {n : ℕ}
    (hv : 0 < variance) (ha0 : 0 < alpha) (ha1 : alpha < 1) (hap : alpha < power)
    (hpp : power ≤ power') (hp1 : power' < 1) (hn : 2 ≤ n) (hd : delta ≠ 0) :
    (get_t_test_group_size_with_pairwise_correction ppf variance delta alpha power n).val ≤
      (get_t_test_group_size_with_pairwise_correction ppf variance delta alpha power' n).val := by
  have hap' : alpha < power' := lt_of_lt_of_le hap hpp
  have hpw1 : power < 1 := lt_of_le_of_lt hpp hp1
  rw [mean_ok hv ha0 ha1 hap hpw1 hn hd, mean_ok hv ha0 ha1 hap' hp1 hn hd]
  simp only [SizeResult.val]
  apply Int.ceil_mono
  have hsum := z_sum_nonneg hm hsym ha0 hap hn
  have hz2 : ppf power ≤ ppf power' := hm hpp
  have hsq : (ppf (1 - alpha / (n.choose 2 : ℝ) / 2) + ppf power) ^ 2 ≤
      (ppf (1 - alpha / (n.choose 2 : ℝ) / 2) + ppf power') ^ 2 :=
    pow_le_pow_left hsum (by linarith) 2
  have hnum : 2 * variance * (ppf (1 - alpha / (n.choose 2 : ℝ) / 2) + ppf power) ^ 2 ≤
      2 * variance * (ppf (1 - alpha / (n.choose 2 : ℝ) / 2) + ppf power') ^ 2 :=
    mul_le_mul_of_nonneg_left hsq (by linarith)
  exact (div_le_div_right (sq_pos_of_ne hd)).mpr hnum

/-- Monotonicity of the t-test group size in the number of groups. -/
lemma mean_val_mono_groups {ppf : ℝ → ℝ} (hm : Monotone ppf)
    (hsym : ∀ x, ppf (1 - x) = -ppf x) {variance delta alpha power : ℝ} {n n' : ℕ}
    (hv : 0 < variance) (ha0 : 0 < alpha) (ha1 : alpha < 1) (hap : alpha < power)
    (hpw1 : power < 1) (hn : 2 ≤ n) (hnn : n ≤ n') (hd : delta ≠ 0) :
    (get_t_test_group_size_with_pairwise_correction ppf variance delta alpha power n).val ≤
      (get_t_test_group_size_with_pairwise_correction ppf variance delta alpha power n').val := by
  have hn' : 2 ≤ n' := le_trans hn hnn
  rw [mean_ok hv ha0 ha1 hap hpw1 hn hd, mean_ok hv ha0 ha1 hap hpw1 hn' hd]
  simp only [SizeResult.val]
  apply Int.ceil_mono
  have hC : (n.choose 2 : ℝ) ≤ (n'.choose 2 : ℝ) := by
    exact_mod_cast Nat.choose_le_choose 2 hnn
  have hC0 : (0:ℝ) < (n.choose 2 : ℝ) := choose_pos_real hn
  have hadj : alpha / (n'.choose 2 : ℝ) ≤ alpha / (n.choose 2 : ℝ) := by
    gcongr
  have hz1 : ppf (1 - alpha / (n.choose 2 : ℝ) / 2) ≤
      ppf (1 - alpha / (n'.choose 2 : ℝ) / 2) := hm (by linarith)
  have hsum := z_sum_nonneg hm hsym ha0 hap hn
  have hsq : (ppf (1 - alpha / (n.choose 2 : ℝ) / 2) + ppf power) ^ 2 ≤
      (ppf (1 - alpha / (n'.choose 2 : ℝ) / 2) + ppf power) ^ 2 :=
    pow_le_pow_left hsum (by linarith) 2
  have hnum : 2 * variance * (ppf (1 - alpha / (n.choose 2 : ℝ) / 2) + ppf power) ^ 2 ≤
      2 * variance * (ppf (1 - alpha / (n'.choose 2 : ℝ) / 2) + ppf power) ^ 2 :=
    mul_le_mul_of_nonneg_left hsq (by linarith)
  exact (div_le_div_right (sq_pos_of_ne hd)).mpr hnum

/-- Antitonicity of the t-test group size in the magnitude of delta. -/
lemma mean_val_anti_delta {ppf : ℝ → ℝ} {variance delta delta' alpha power : ℝ} {n : ℕ}
    (hv : 0 < variance) (ha0 : 0 < alpha) (ha1 : alpha < 1) (hap : alpha < power)
    (hpw1 : power < 1) (hn : 2 ≤ n) (hd : delta ≠ 0) (habs : |delta| ≤ |delta'|) :
    (get_t_test_group_size_with_pairwise_correction ppf variance delta' alpha power n).val ≤
      (get_t_test_group_size_with_pairwise_correction ppf variance delta alpha power n).val := by
  have hd' : delta' ≠ 0 := by
    intro h
    rw [h, abs_zero] at habs
    exact hd (abs_eq_zero.mp (le_antisymm habs (abs_nonneg _)))
  rw [mean_ok hv ha0 ha1 hap hpw1 hn hd, mean_ok hv ha0 ha1 hap hpw1 hn hd']
  simp only [SizeResult.val]
  apply Int.ceil_mono
  have hsq : delta ^ 2 ≤ delta' ^ 2 := by
    rw [← sq_abs delta, ← sq_abs delta']
    exact pow_le_pow_left (abs_nonneg _) habs 2
  have hnum : 0 ≤ 2 * variance * (ppf (1 - alpha / (n.choose 2 : ℝ) / 2) + ppf power) ^ 2 :=
    mul_nonneg (by linarith) (sq_nonneg _)
  gcongr

/-- Monotonicity of the proportion group size in power. -/
lemma prop_val_mono_power {ppf : ℝ → ℝ} (hm : Monotone ppf)
    (hsym : ∀ x, ppf (1 - x) = -ppf x) {p1 p2 alpha power power' : ℝ} {n : ℕ}
    (hp10 : 0 < p1) (hp11 : p1 < 1) (hp20 : 0 < p2) (hp21 : p2 < 1) (hne : p1 ≠ p2)
    (ha0 : 0 < alpha) (hap : alpha < power) (hpp : power ≤ power') (hp1 : power' < 1)
    (hn : 2 ≤ n) :
    (get_proportion_test_group_size_with_pairwise_correction ppf p1 p2 alpha power n).val ≤
      (get_proportion_test_group_size_with_pairwise_correction ppf p1 p2 alpha power' n).val := by
  have hap' : alpha < power' := lt_of_lt_of_le hap hpp
  have hpw1 : power < 1 := lt_of_le_of_lt hpp hp1
  have ha1 : alpha < 1 := lt_trans hap hpw1
  rw [prop_ok hp10 hp11 hp20 hp21 ha0 ha1 hap hpw1 hn hne,
    prop_ok hp10 hp11 hp20 hp21 ha0 ha1 hap' hp1 hn hne]
  simp only [SizeResult.val]
  apply Int.ceil_mono
  have hz2 : ppf power ≤ ppf power' := hm hpp
  have hN := @prop_num_nonneg ppf hm hsym p1 p2 alpha power n ha0 ha1 hap hn
  have hstep : ppf power * Real.sqrt (p1 * (1 - p1) + p2 * (1 - p2)) ≤
      ppf power' * Real.sqrt (p1 * (1 - p1) + p2 * (1 - p2)) :=
    mul_le_mul_of_nonneg_right hz2 (Real.sqrt_nonneg _)
  have habs : 0 < |p2 - p1| := abs_pos.mpr (sub_ne_zero.mpr (Ne.symm hne))
  have hdivle : (ppf (1 - alpha / (n.choose 2 : ℝ) / 2)
        * Real.sqrt (2 * ((p1 + p2) / 2) * (1 - (p1 + p2) / 2))
      + ppf power * Real.sqrt (p1 * (1 - p1) + p2 * (1 - p2))) / |p2 - p1| ≤
      (ppf (1 - alpha / (n.choose 2 : ℝ) / 2)
        * Real.sqrt (2 * ((p1 + p2) / 2) * (1 - (p1 + p2) / 2))
      + ppf power' * Real.sqrt (p1 * (1 - p1) + p2 * (1 - p2))) / |p2 - p1| :=
    (div_le_div_right habs).mpr (by linarith)
  have hdivnn : 0 ≤ (ppf (1 - alpha / (n.choose 2 : ℝ) / 2)
        * Real.sqrt (2 * ((p1 + p2) / 2) * (1 - (p1 + p2) / 2))
      + ppf power * Real.sqrt (p1 * (1 - p1) + p2 * (1 - p2))) / |p2 - p1| :=
    div_nonneg hN habs.le
  exact pow_le_pow_left hdivnn hdivle 2

/-- Monotonicity of the proportion group size in the number of groups. -/
lemma prop_val_mono_groups {ppf : ℝ → ℝ} (hm : Monotone ppf)
    (hsym : ∀ x, ppf (1 - x) = -ppf x) {p1 p2 alpha power : ℝ} {n n' : ℕ}
    (hp10 : 0 < p1) (hp11 : p1 < 1) (hp20 : 0 < p2) (hp21 : p2 < 1) (hne : p1 ≠ p2)
    (ha0 : 0 < alpha) (hap : alpha < power) (hpw1 : power < 1) (hn : 2 ≤ n) (hnn : n ≤ n') :
    (get_proportion_test_group_size_with_pairwise_correction ppf p1 p2 alpha power n).val ≤
      (get_proportion_test_group_size_with_pairwise_correction ppf p1 p2 alpha power n').val := by
  have hn' : 2 ≤ n' := le_trans hn hnn
  have ha1 : alpha < 1 := lt_trans hap hpw1
  rw [prop_ok hp10 hp11 hp20 hp21 ha0 ha1 hap hpw1 hn hne,
    prop_ok hp10 hp11 hp20 hp21 ha0 ha1 hap hpw1 hn' hne]
  simp only [SizeResult.val]
  apply Int.ceil_mono
  have hC : (n.choose 2 : ℝ) ≤ (n'.choose 2 : ℝ) := by
    exact_mod_cast Nat.choose_le_choose 2 hnn
  have hC0 : (0:ℝ) < (n.choose 2 : ℝ) := choose_pos_real hn
  have hadj : alpha / (n'.choose 2 : ℝ) ≤ alpha / (n.choose 2 : ℝ) := by
    gcongr
  have hz1 : ppf (1 - alpha / (n.choose 2 : ℝ) / 2) ≤
      ppf (1 - alpha / (n'.choose 2 : ℝ) / 2) := hm (by linarith)
  have hN := @prop_num_nonneg ppf hm hsym p1 p2 alpha power n ha0 ha1 hap hn
  have hstep : ppf (1 - alpha / (n.choose 2 : ℝ) / 2)
        * Real.sqrt (2 * ((p1 + p2) / 2) * (1 - (p1 + p2) / 2)) ≤
      ppf (1 - alpha / (n'.choose 2 : ℝ) / 2)
        * Real.sqrt (2 * ((p1 + p2) / 2) * (1 - (p1 + p2) / 2)) :=
    mul_le_mul_of_nonneg_right hz1 (Real.sqrt_nonneg _)
  have habs : 0 < |p2 - p1| := abs_pos.mpr (sub_ne_zero.mpr (Ne.symm hne))
  have hdivle : (ppf (1 - alpha / (n.choose 2 : ℝ) / 2)
        * Real.sqrt (2 * ((p1 + p2) / 2) * (1 - (p1 + p2) / 2))
      + ppf power * Real.sqrt (p1 * (1 - p1) + p2 * (1 - p2))) / |p2 - p1| ≤
      (ppf (1 - alpha / (n'.choose 2 : ℝ) / 2)
        * Real.sqrt (2 * ((p1 + p2) / 2) * (1 - (p1 + p2) / 2))
      + ppf power * Real.sqrt (p1 * (1 - p1) + p2 * (1 - p2))) / |p2 - p1| :=
    (div_le_div_right habs).mpr (by linarith)
  have hdivnn : 0 ≤ (ppf (1 - alpha / (n.choose 2 : ℝ) / 2)
        * Real.sqrt (2 * ((p1 + p2) / 2) * (1 - (p1 + p2) / 2))
      + ppf power * Real.sqrt (p1 * (1 - p1) + p2 * (1 - p2))) / |p2 - p1| :=
    div_nonneg hN habs.le
  exact pow_le_pow_left hdivnn hdivle 2

/-- Comparison of scaled square roots: from A'*u^2 ≤ A*u'^2 (all relevant
quantities nonnegative) conclude sqrt(A')/u' ≤ sqrt(A)/u. -/
lemma sqrt_ratio_anti {A A' u u' : ℝ} (hA' : 0 ≤ A') (hu : 0 < u) (hu' : 0 < u')
    (h : A' * u ^ 2 ≤ A * u' ^ 2) : Real.sqrt A' / u' ≤ Real.sqrt A / u := by
  have hA : 0 ≤ A := by
    by_contra hA
    push_neg at hA
    nlinarith [mul_nonneg hA' (sq_nonneg u), sq_pos_of_ne (ne_of_gt hu')]
  rw [div_le_div_iff hu' hu]
  have h1 : Real.sqrt A' * u = Real.sqrt (A' * u ^ 2) := by
    rw [Real.sqrt_mul hA', Real.sqrt_sq hu.le]
  have h2 : Real.sqrt (A * u' ^ 2) = Real.sqrt A * u' := by
    rw [Real.sqrt_mul hA, Real.sqrt_sq hu'.le]
  rw [h1, ← h2]
  exact Real.sqrt_le_sqrt h

/-- Core polynomial inequality behind the gap antitonicity of the
proportion formula: moving p2 up to p2' (with p1 fixed, 0 < p1 < p2 and
p2' < 1) can only decrease (p1+p2)(2-(p1+p2)) relative to the square of
the gap. -/
lemma key_poly {p1 p2 p2' : ℝ} (h0 : 0 < p1) (h12 : p1 < p2) (h22 : p2 ≤ p2')
    (h21 : p2' < 1) :
    (p1 + p2') * (2 - (p1 + p2')) * (p2 - p1) ^ 2 ≤
      (p1 + p2) * (2 - (p1 + p2)) * (p2' - p1) ^ 2 := by
  have hw : 0 ≤ p2' - p2 := sub_nonneg.2 h22
  have hu : 0 < p2 - p1 := sub_pos.2 h12
  have hs0 : 0 < p1 + p2 := by linarith
  have hs2 : (0:ℝ) < 2 - (p1 + p2) := by linarith
  have hu_le_s : p2 - p1 ≤ p1 + p2 := by linarith
  have hid : (p1 + p2) * (2 - (p1 + p2)) * (p2' - p1) ^ 2
      - (p1 + p2') * (2 - (p1 + p2')) * (p2 - p1) ^ 2
      = (p2' - p2) * (2 * (p1 + p2) * (2 - (p1 + p2)) * (p2 - p1)
          + (p1 + p2) * (2 - (p1 + p2)) * (p2' - p2)
          + 2 * ((p1 + p2) - 1) * (p2 - p1) ^ 2 + (p2 - p1) ^ 2 * (p2' - p2)) := by
    ring
  have hbr : 0 ≤ 2 * (p1 + p2) * (2 - (p1 + p2)) * (p2 - p1)
      + (p1 + p2) * (2 - (p1 + p2)) * (p2' - p2)
      + 2 * ((p1 + p2) - 1) * (p2 - p1) ^ 2 + (p2 - p1) ^ 2 * (p2' - p2) := by
    have t2 : 0 ≤ (p1 + p2) * (2 - (p1 + p2)) * (p2' - p2) :=
      mul_nonneg (mul_nonneg hs0.le hs2.le) hw
    have t4 : 0 ≤ (p2 - p1) ^ 2 * (p2' - p2) := mul_nonneg (sq_nonneg _) hw
    rcases le_or_lt 1 (p1 + p2) with hs1 | hs1
    · have t1 : 0 ≤ 2 * (p1 + p2) * (2 - (p1 + p2)) * (p2 - p1) :=
        mul_nonneg (mul_nonneg (mul_nonneg (by norm_num) hs0.le) hs2.le) hu.le
      have t3 : 0 ≤ 2 * ((p1 + p2) - 1) * (p2 - p1) ^ 2 :=
        mul_nonneg (mul_nonneg (by norm_num) (by linarith)) (sq_nonneg _)
      linarith
    · have hkey : (1 - (p1 + p2)) * (p2 - p1) ≤ (1 - (p1 + p2)) * (p1 + p2) :=
        mul_le_mul_of_nonneg_left hu_le_s (by linarith)
      have hkey2 : 2 * (p2 - p1) * ((1 - (p1 + p2)) * (p2 - p1)) ≤
          2 * (p2 - p1) * ((1 - (p1 + p2)) * (p1 + p2)) :=
        mul_le_mul_of_nonneg_left hkey (by linarith)
      have t5 : 0 < 2 * (p1 + p2) * (p2 - p1) := mul_pos (mul_pos two_pos hs0) hu
      nlinarith [hkey2, t2, t4, t5]
  nlinarith [mul_nonneg hw hbr, hid]

/-- Antitonicity of the proportion group size when p2 moves away from a
fixed p1 (gap |p2 - p1| increases on the same side), provided power ≥ 1/2
so that both quantile values in the numerator are nonnegative. -/
lemma prop_val_anti_gap {ppf : ℝ → ℝ} (hm : Monotone ppf)
    (hsym : ∀ x, ppf (1 - x) = -ppf x) {p1 p2 p2' alpha power : ℝ} {n : ℕ}
    (hp10 : 0 < p1) (h12 : p1 < p2) (h22 : p2 ≤ p2') (h21 : p2' < 1)
    (ha0 : 0 < alpha) (hap : alpha < power) (hpw1 : power < 1) (hn : 2 ≤ n)
    (hpw : 1/2 ≤ power) :
    (get_proportion_test_group_size_with_pairwise_correction ppf p1 p2' alpha power n).val ≤
      (get_proportion_test_group_size_with_pairwise_correction ppf p1 p2 alpha power n).val := by
  have hp21 : p2 < 1 := lt_of_le_of_lt h22 h21
  have hp11 : p1 < 1 := lt_trans h12 hp21
  have hp20 : 0 < p2 := lt_trans hp10 h12
  have hp20' : 0 < p2' := lt_of_lt_of_le hp20 h22
  have ha1 : alpha < 1 := lt_trans hap hpw1
  have hne : p1 ≠ p2 := ne_of_lt h12
  have hne' : p1 ≠ p2' := ne_of_lt (lt_of_lt_of_le h12 h22)
  rw [prop_ok hp10 hp11 hp20 hp21 ha0 ha1 hap hpw1 hn hne,
    prop_ok hp10 hp11 hp20' h21 ha0 ha1 hap hpw1 hn hne']
  simp only [SizeResult.val]
  apply Int.ceil_mono
  have hadj1 := adjusted_le_alpha ha0.le hn
  have hz1 : 0 ≤ ppf (1 - alpha / (n.choose 2 : ℝ) / 2) :=
    ppf_nonneg_of_half_le hm hsym (by linarith)
  have hz2 : 0 ≤ ppf power := ppf_nonneg_of_half_le hm hsym hpw
  have hu : 0 < p2 - p1 := sub_pos.2 h12
  have hu' : 0 < p2' - p1 := sub_pos.2 (lt_of_lt_of_le h12 h22)
  have habs : |p2 - p1| = p2 - p1 := abs_of_pos hu
  have habs' : |p2' - p1| = p2' - p1 := abs_of_pos hu'
  rw [habs, habs']
  have hA'nn : 0 ≤ 2 * ((p1 + p2') / 2) * (1 - (p1 + p2') / 2) := by nlinarith
  have hB'nn : 0 ≤ p1 * (1 - p1) + p2' * (1 - p2') :=
    indiv_var_nonneg hp10 hp11 hp20' h21
  have hkp := key_poly hp10 h12 h22 h21
  have hkeyA : (2 * ((p1 + p2') / 2) * (1 - (p1 + p2') / 2)) * (p2 - p1) ^ 2 ≤
      (2 * ((p1 + p2) / 2) * (1 - (p1 + p2) / 2)) * (p2' - p1) ^ 2 := by
    nlinarith [hkp]
  have hkeyB : (p1 * (1 - p1) + p2' * (1 - p2')) * (p2 - p1) ^ 2 ≤
      (p1 * (1 - p1) + p2 * (1 - p2)) * (p2' - p1) ^ 2 := by
    nlinarith [hkp]
  have hrA := sqrt_ratio_anti hA'nn hu hu' hkeyA
  have hrB := sqrt_ratio_anti hB'nn hu hu' hkeyB
  have e1 : (ppf (1 - alpha / (n.choose 2 : ℝ) / 2)
        * Real.sqrt (2 * ((p1 + p2') / 2) * (1 - (p1 + p2') / 2))
      + ppf power * Real.sqrt (p1 * (1 - p1) + p2' * (1 - p2'))) / (p2' - p1) =
      ppf (1 - alpha / (n.choose 2 : ℝ) / 2)
          * (Real.sqrt (2 * ((p1 + p2') / 2) * (1 - (p1 + p2') / 2)) / (p2' - p1))
        + ppf power * (Real.sqrt (p1 * (1 - p1) + p2' * (1 - p2')) / (p2' - p1)) := by
    ring
  have e2 : (ppf (1 - alpha / (n.choose 2 : ℝ) / 2)
        * Real.sqrt (2 * ((p1 + p2) / 2) * (1 - (p1 + p2) / 2))
      + ppf power * Real.sqrt (p1 * (1 - p1) + p2 * (1 - p2))) / (p2 - p1) =
      ppf (1 - alpha / (n.choose 2 : ℝ) / 2)
          * (Real.sqrt (2 * ((p1 + p2) / 2) * (1 - (p1 + p2) / 2)) / (p2 - p1))
        + ppf power * (Real.sqrt (p1 * (1 - p1) + p2 * (1 - p2)) / (p2 - p1)) := by
    ring
  rw [e1, e2]
  have hcomb := add_le_add (mul_le_mul_of_nonneg_left hrA hz1)
    (mul_le_mul_of_nonneg_left hrB hz2)
  have hnn : 0 ≤ ppf (1 - alpha / (n.choose 2 : ℝ) / 2)
        * (Real.sqrt (2 * ((p1 + p2') / 2) * (1 - (p1 + p2') / 2)) / (p2' - p1))
      + ppf power * (Real.sqrt (p1 * (1 - p1) + p2' * (1 - p2')) / (p2' - p1)) :=
    add_nonneg (mul_nonneg hz1 (div_nonneg (Real.sqrt_nonneg _) hu'.le))
      (mul_nonneg hz2 (div_nonneg (Real.sqrt_nonneg _) hu'.le))
  exact pow_le_pow_left hnn hcomb 2

lemma sqrt_mul_sq {a b : ℝ} (ha : 0 ≤ a) : Real.sqrt (a ^ 2 * b) = a * Real.sqrt b := by
  rw [Real.sqrt_mul (sq_nonneg a), Real.sqrt_sq ha]

lemma sqrt_half : Real.sqrt ((1:ℝ)/2) = 1/2 * Real.sqrt 2 := by
  have h := sqrt_mul_sq (a := (1:ℝ)/2) (b := 2) (by norm_num)
  rw [show ((1:ℝ)/2)^2 * 2 = 1/2 by norm_num] at h
  exact h

lemma sqrt_eight_twentyfifths : Real.sqrt ((8:ℝ)/25) = 2/5 * Real.sqrt 2 := by
  have h := sqrt_mul_sq (a := (2:ℝ)/5) (b := 2) (by norm_num)
  rw [show ((2:ℝ)/5)^2 * 2 = 8/25 by norm_num] at h
  exact h

lemma sqrt_quarter : Real.sqrt ((1:ℝ)/4) = 1/2 := by
  rw [show ((1:ℝ)/4) = ((1:ℝ)/2)^2 by norm_num, Real.sqrt_sq (by norm_num : (0:ℝ) ≤ 1/2)]

/-- Two-level odd step function: -c below -t, 0 on [-t, t], c above t.
Building block for quantile models with prescribed values. -/
noncomputable def stepOdd (t c : ℝ) : ℝ → ℝ := fun y =>
  if y < -t then -c else if y ≤ t then 0 else c

lemma stepOdd_monotone {t c : ℝ} (ht : 0 ≤ t) (hc : 0 ≤ c) :
    Monotone (stepOdd t c) := by
  intro a b hab
  unfold stepOdd
  split_ifs <;> linarith

lemma stepOdd_odd {t c : ℝ} (ht : 0 ≤ t) : ∀ y, stepOdd t c (-y) = -stepOdd t c y := by
  intro y
  unfold stepOdd
  split_ifs <;> linarith

/-- Strictly monotone, point-symmetric quantile model agreeing with the
standard-normal quantile function at the four probabilities read by the
C6 counterexample calls:
ppfC6 (4/5)                   = 0.8416       (true value 0.841621...),
ppfC6 (39/40)                 = 1.96         (true value 1.959963...),
ppfC6 (1/50000000)            = -5.4909      (true value -5.490851...),
ppfC6 (199999999/200000000)   = 5.7307       (true value 5.730728...).
It is the sum of the strictly monotone odd map x - 1/2 and four monotone
odd steps, hence strictly monotone and point symmetric about 1/2. -/
noncomputable def ppfC6 : ℝ → ℝ := fun x =>
  (x - 1/2) + stepOdd (1/10) (677/1250) (x - 1/2)
    + stepOdd (2/5) (4717/5000) (x - 1/2)
    + stepOdd (49/100) (175295001/50000000) (x - 1/2)
    + stepOdd (49999999/100000000) (47959997/200000000) (x - 1/2)

lemma ppfC6_strictMono : StrictMono ppfC6 := by
  intro a b hab
  have hy : a - 1/2 ≤ b - 1/2 := by linarith
  have h4 := stepOdd_monotone (t := 1/10) (c := 677/1250) (by norm_num) (by norm_num) hy
  have h3 := stepOdd_monotone (t := 2/5) (c := 4717/5000) (by norm_num) (by norm_num) hy
  have h2 := stepOdd_monotone (t := 49/100) (c := 175295001/50000000) (by norm_num)
    (by norm_num) hy
  have h1 := stepOdd_monotone (t := 49999999/100000000) (c := 47959997/200000000)
    (by norm_num) (by norm_num) hy
  unfold ppfC6
  linarith

lemma ppfC6_symm : ∀ x, ppfC6 (1 - x) = -ppfC6 x := by
  intro x
  unfold ppfC6
  have e : (1 : ℝ) - x - 1/2 = -(x - 1/2) := by ring
  rw [e, stepOdd_odd (by norm_num) (x - 1/2), stepOdd_odd (by norm_num) (x - 1/2),
    stepOdd_odd (by norm_num) (x - 1/2), stepOdd_odd (by norm_num) (x - 1/2)]
  ring

lemma sqrt_99_200_lb : (7035:ℝ)/10000 ≤ Real.sqrt (99/200) := by
  have h2 : ((7035:ℝ)/10000) ^ 2 ≤ 99/200 := by norm_num
  exact Real.le_sqrt' (by norm_num) |>.mpr h2

lemma sqrt_A1_ub : Real.sqrt ((5991:ℝ)/2000000) ≤ 548/10000 := by
  calc Real.sqrt ((5991:ℝ)/2000000) ≤ Real.sqrt (((548:ℝ)/10000) ^ 2) :=
        Real.sqrt_le_sqrt (by norm_num)
    _ = 548/10000 := Real.sqrt_sq (by norm_num)

lemma sqrt_B1_ub : Real.sqrt ((599:ℝ)/200000) ≤ 548/10000 := by
  calc Real.sqrt ((599:ℝ)/200000) ≤ Real.sqrt (((548:ℝ)/10000) ^ 2) :=
        Real.sqrt_le_sqrt (by norm_num)
    _ = 548/10000 := Real.sqrt_sq (by norm_num)

lemma sqrt_A2_lb : (707:ℝ)/1000 ≤ Real.sqrt (99999999/200000000) := by
  have h2 : ((707:ℝ)/1000) ^ 2 ≤ 99999999/200000000 := by norm_num
  exact Real.le_sqrt' (by norm_num) |>.mpr h2

/-- For every quantile model within the true standard-normal brackets
Phi^-1(1 - 5e-9) = 5.730728... in [5.7306, 5.7308] and
Phi^-1(2e-8) = -5.490851... in [-5.4910, -5.4908] (in particular for the
real norm.ppf), the call with alpha = 1e-8, power = 2e-8, n_groups = 2 and
p1 = 1/5 returns 3 at p2 = 4/5 but a value above 3 at p2 = 9/10, although
the gap |p2 - p1| grows from 3/5 to 7/10. -/
lemma prop_gap_violation_small_power (ppf : ℝ → ℝ)
    (h1l : 57306/10000 ≤ ppf (199999999/200000000))
    (h1u : ppf (199999999/200000000) ≤ 57308/10000)
    (h2l : -(54910/10000) ≤ ppf (1/50000000))
    (h2u : ppf (1/50000000) ≤ -(54908/10000)) :
    get_proportion_test_group_size_with_pairwise_correction ppf
        (1/5) (4/5) (1/100000000) (1/50000000) 2 = SizeResult.ok 3 ∧
    3 < (get_proportion_test_group_size_with_pairwise_correction ppf
        (1/5) (9/10) (1/100000000) (1/50000000) 2).val := by
  have e2 : ((2:ℕ).choose 2 : ℝ) = 1 := by rw [Nat.choose_self]; norm_num
  have harg : (1 : ℝ) - (1/100000000) / ((2:ℕ).choose 2 : ℝ) / 2 =
      199999999/200000000 := by rw [e2]; norm_num
  have hw1 : (6689:ℝ)/10000 ≤
      ppf (199999999/200000000) / 2 + 2 * ppf (1/50000000) / 5 := by linarith
  have hw2 : ppf (199999999/200000000) / 2 + 2 * ppf (1/50000000) / 5 ≤
      (66908:ℝ)/100000 := by linarith
  have hw0 : (0:ℝ) ≤ ppf (199999999/200000000) / 2 + 2 * ppf (1/50000000) / 5 := by
    linarith
  constructor
  · rw [prop_ok (by norm_num) (by norm_num) (by norm_num) (by norm_num) (by norm_num)
      (by norm_num) (by norm_num) (by norm_num) (by norm_num) (by norm_num)]
    congr 1
    have hS1 : Real.sqrt (2 * (((1:ℝ)/5 + 4/5) / 2) * (1 - ((1:ℝ)/5 + 4/5) / 2)) =
        1/2 * Real.sqrt 2 := by
      rw [show (2 * (((1:ℝ)/5 + 4/5) / 2) * (1 - ((1:ℝ)/5 + 4/5) / 2)) = 1/2 by norm_num]
      exact sqrt_half
    have hS2 : Real.sqrt ((1:ℝ)/5 * (1 - 1/5) + 4/5 * (1 - 4/5)) = 2/5 * Real.sqrt 2 := by
      rw [show ((1:ℝ)/5 * (1 - 1/5) + 4/5 * (1 - 4/5)) = 8/25 by norm_num]
      exact sqrt_eight_twentyfifths
    have habs : |(4:ℝ)/5 - 1/5| = 3/5 := by
      rw [show ((4:ℝ)/5 - 1/5) = 3/5 by norm_num]
      exact abs_of_pos (by norm_num)
    rw [harg, hS1, hS2, habs]
    have hexp : ((ppf (199999999/200000000) * (1/2 * Real.sqrt 2)
          + ppf (1/50000000) * (2/5 * Real.sqrt 2)) / (3/5)) ^ 2 =
        Real.sqrt 2 ^ 2 *
          ((ppf (199999999/200000000) / 2 + 2 * ppf (1/50000000) / 5) * (5/3)) ^ 2 := by
      ring
    rw [hexp, Real.sq_sqrt (by norm_num : (0:ℝ) ≤ 2), Int.ceil_eq_iff]
    constructor
    · push_cast
      nlinarith [hw1, hw0]
    · push_cast
      nlinarith [hw2, hw0]
  · rw [prop_ok (by norm_num) (by norm_num) (by norm_num) (by norm_num) (by norm_num)
      (by norm_num) (by norm_num) (by norm_num) (by norm_num) (by norm_num)]
    simp only [SizeResult.val]
    rw [Int.lt_ceil]
    have hS2p : Real.sqrt ((1:ℝ)/5 * (1 - 1/5) + 9/10 * (1 - 9/10)) = 1/2 := by
      rw [show ((1:ℝ)/5 * (1 - 1/5) + 9/10 * (1 - 9/10)) = 1/4 by norm_num]
      exact sqrt_quarter
    have habsp : |(9:ℝ)/10 - 1/5| = 7/10 := by
      rw [show ((9:ℝ)/10 - 1/5) = 7/10 by norm_num]
      exact abs_of_pos (by norm_num)
    have hargA : (2 * (((1:ℝ)/5 + 9/10) / 2) * (1 - ((1:ℝ)/5 + 9/10) / 2)) = 99/200 := by
      norm_num
    rw [harg, hS2p, habsp, hargA]
    have hterm1 : (57306:ℝ)/10000 * (7035/10000) ≤
        ppf (199999999/200000000) * Real.sqrt (99/200) :=
      mul_le_mul h1l sqrt_99_200_lb (by norm_num) (le_trans (by norm_num) h1l)
    have hterm2 : (-(54910:ℝ)/10000) * (1/2) ≤ ppf (1/50000000) * (1/2) :=
      mul_le_mul_of_nonneg_right (by linarith) (by norm_num)
    have hnum : (12859771:ℝ)/10000000 ≤
        ppf (199999999/200000000) * Real.sqrt (99/200) + ppf (1/50000000) * (1/2) := by
      nlinarith [hterm1, hterm2]
    have hdiv : (12859771:ℝ)/10000000 / (7/10) ≤
        (ppf (199999999/200000000) * Real.sqrt (99/200) + ppf (1/50000000) * (1/2))
          / (7/10) :=
      (div_le_div_right (by norm_num : (0:ℝ) < 7/10)).mpr hnum
    have hq0 : (0:ℝ) ≤ 12859771/10000000 / (7/10) := by norm_num
    calc ((3:ℤ) : ℝ) < ((12859771:ℝ)/10000000 / (7/10)) ^ 2 := by push_cast; norm_num
      _ ≤ ((ppf (199999999/200000000) * Real.sqrt (99/200) + ppf (1/50000000) * (1/2))
            / (7/10)) ^ 2 := pow_le_pow_left hq0 hdiv 2

/-- For every quantile model within the true standard-normal brackets
Phi^-1(0.975) in [1.9599, 1.96] and Phi^-1(0.8) in [0.8416, 0.8417] (in
particular for the real norm.ppf), at alpha = 0.05, power = 0.8 and
n_groups = 2 the pair (p1, p2) = (0.001, 0.002) with gap 0.001 yields a
strictly smaller group size than the pair (0.4995, 0.5006) with the
larger gap 0.0011 - refuting gap antitonicity when p1 is not held
fixed, even for power ≥ 1/2. -/
lemma prop_gap_violation_moving_p1 (ppf : ℝ → ℝ)
    (h1l : 19599/10000 ≤ ppf (39/40)) (h1u : ppf (39/40) ≤ 196/100)
    (h2l : 8416/10000 ≤ ppf (4/5)) (h2u : ppf (4/5) ≤ 8417/10000) :
    (get_proportion_test_group_size_with_pairwise_correction ppf
        (1/1000) (1/500) (1/20) (4/5) 2).val <
      (get_proportion_test_group_size_with_pairwise_correction ppf
        (999/2000) (2503/5000) (1/20) (4/5) 2).val := by
  have e2 : ((2:ℕ).choose 2 : ℝ) = 1 := by rw [Nat.choose_self]; norm_num
  have harg : (1 : ℝ) - (1/20) / ((2:ℕ).choose 2 : ℝ) / 2 = 39/40 := by
    rw [e2]; norm_num
  have hz1nn : (0:ℝ) ≤ ppf (39/40) := le_trans (by norm_num) h1l
  have hz2nn : (0:ℝ) ≤ ppf (4/5) := le_trans (by norm_num) h2l
  have hle : (get_proportion_test_group_size_with_pairwise_correction ppf
      (1/1000) (1/500) (1/20) (4/5) 2).val ≤ 24000 := by
    rw [prop_ok (by norm_num) (by norm_num) (by norm_num) (by norm_num) (by norm_num)
      (by norm_num) (by norm_num) (by norm_num) (by norm_num) (by norm_num)]
    simp only [SizeResult.val]
    rw [Int.ceil_le]
    have hA : (2 * (((1:ℝ)/1000 + 1/500) / 2) * (1 - ((1:ℝ)/1000 + 1/500) / 2)) =
        5991/2000000 := by norm_num
    have hB : ((1:ℝ)/1000 * (1 - 1/1000) + 1/500 * (1 - 1/500)) = 599/200000 := by
      norm_num
    have habs : |(1:ℝ)/500 - 1/1000| = 1/1000 := by
      rw [show ((1:ℝ)/500 - 1/1000) = 1/1000 by norm_num]
      exact abs_of_pos (by norm_num)
    rw [harg, hA, hB, habs]
    have ht1 : ppf (39/40) * Real.sqrt (5991/2000000) ≤ (196:ℝ)/100 * (548/10000) :=
      mul_le_mul h1u sqrt_A1_ub (Real.sqrt_nonneg _) (by norm_num)
    have ht2 : ppf (4/5) * Real.sqrt (599/200000) ≤ (8417:ℝ)/10000 * (548/10000) :=
      mul_le_mul h2u sqrt_B1_ub (Real.sqrt_nonneg _) (by norm_num)
    have hnn : 0 ≤ ppf (39/40) * Real.sqrt (5991/2000000)
        + ppf (4/5) * Real.sqrt (599/200000) :=
      add_nonneg (mul_nonneg hz1nn (Real.sqrt_nonneg _))
        (mul_nonneg hz2nn (Real.sqrt_nonneg _))
    have hv : (ppf (39/40) * Real.sqrt (5991/2000000)
          + ppf (4/5) * Real.sqrt (599/200000)) / (1/1000) ≤
        ((196:ℝ)/100 * (548/10000) + 8417/10000 * (548/10000)) / (1/1000) :=
      (div_le_div_right (by norm_num : (0:ℝ) < 1/1000)).mpr (by linarith)
    have hvnn : 0 ≤ (ppf (39/40) * Real.sqrt (5991/2000000)
        + ppf (4/5) * Real.sqrt (599/200000)) / (1/1000) :=
      div_nonneg hnn (by norm_num)
    calc ((ppf (39/40) * Real.sqrt (5991/2000000)
            + ppf (4/5) * Real.sqrt (599/200000)) / (1/1000)) ^ 2 ≤
          (((196:ℝ)/100 * (548/10000) + 8417/10000 * (548/10000)) / (1/1000)) ^ 2 :=
        pow_le_pow_left hvnn hv 2
      _ ≤ ((24000:ℤ) : ℝ) := by push_cast; norm_num
  have hgt : (24000:ℤ) < (get_proportion_test_group_size_with_pairwise_correction ppf
      (999/2000) (2503/5000) (1/20) (4/5) 2).val := by
    rw [prop_ok (by norm_num) (by norm_num) (by norm_num) (by norm_num) (by norm_num)
      (by norm_num) (by norm_num) (by norm_num) (by norm_num) (by norm_num)]
    simp only [SizeResult.val]
    rw [Int.lt_ceil]
    have hA : (2 * (((999:ℝ)/2000 + 2503/5000) / 2) * (1 - ((999:ℝ)/2000 + 2503/5000) / 2)) =
        99999999/200000000 := by norm_num
    have habs : |(2503:ℝ)/5000 - 999/2000| = 11/10000 := by
      rw [show ((2503:ℝ)/5000 - 999/2000) = 11/10000 by norm_num]
      exact abs_of_pos (by norm_num)
    rw [harg, hA, habs]
    have ht1 : (19599:ℝ)/10000 * (707/1000) ≤ ppf (39/40) * Real.sqrt (99999999/200000000) :=
      mul_le_mul h1l sqrt_A2_lb (by norm_num) hz1nn
    have ht2 : 0 ≤ ppf (4/5) *
        Real.sqrt ((999:ℝ)/2000 * (1 - 999/2000) + 2503/5000 * (1 - 2503/5000)) :=
      mul_nonneg hz2nn (Real.sqrt_nonneg _)
    have hnum : (11:ℝ)/10 ≤ ppf (39/40) * Real.sqrt (99999999/200000000)
        + ppf (4/5) * Real.sqrt ((999:ℝ)/2000 * (1 - 999/2000) + 2503/5000 * (1 - 2503/5000)) := by
      nlinarith [ht1, ht2]
    have hv : (1000:ℝ) ≤ (ppf (39/40) * Real.sqrt (99999999/200000000)
        + ppf (4/5) * Real.sqrt ((999:ℝ)/2000 * (1 - 999/2000) + 2503/5000 * (1 - 2503/5000)))
          / (11/10000) := by
      rw [le_div_iff (by norm_num : (0:ℝ) < 11/10000)]
      linarith
    calc ((24000:ℤ) : ℝ) < (1000:ℝ) ^ 2 := by push_cast; norm_num
      _ ≤ ((ppf (39/40) * Real.sqrt (99999999/200000000)
            + ppf (4/5) * Real.sqrt ((999:ℝ)/2000 * (1 - 999/2000)
              + 2503/5000 * (1 - 2503/5000))) / (11/10000)) ^ 2 :=
        pow_le_pow_left (by norm_num) hv 2
  exact lt_of_le_of_lt hle hgt

/-- C6 counterexample: the model ppfC6 is strictly monotone, point
symmetric, and takes the true standard-normal quantile values (within the
displayed brackets, which hold for the real norm.ppf) at every
probability the two scenarios read.  First scenario (alpha = 1e-8,
power = 2e-8 < 1/2, p1 = 1/5 fixed): moving p2 from 4/5 to 9/10 grows the
gap |p2 - p1| from 3/5 to 7/10, yet the returned size strictly increases
from 3 to at least 4.  Second scenario (alpha = 1/20, power = 4/5 ≥ 1/2,
textbook parameters): the pair (0.001, 0.002) with gap 0.001 returns a
strictly smaller size than the pair (0.4995, 0.5006) with the larger gap
0.0011 (about 23511 versus 3243338).  Together these refute the claimed
weak decrease in |p2 - p1| in both readings - p1 fixed and p1 free - and
force both restrictions of the amended statement. -/
theorem claim_C6_counterexample :
    StrictMono ppfC6 ∧
    (∀ x, ppfC6 (1 - x) = -ppfC6 x) ∧
    (57306/10000 ≤ ppfC6 (199999999/200000000) ∧
      ppfC6 (199999999/200000000) ≤ 57308/10000) ∧
    (-(54910/10000) ≤ ppfC6 (1/50000000) ∧ ppfC6 (1/50000000) ≤ -(54908/10000)) ∧
    (19599/10000 ≤ ppfC6 (39/40) ∧ ppfC6 (39/40) ≤ 196/100) ∧
    (8416/10000 ≤ ppfC6 (4/5) ∧ ppfC6 (4/5) ≤ 8417/10000) ∧
    |(9:ℝ)/10 - 1/5| > |(4:ℝ)/5 - 1/5| ∧
    get_proportion_test_group_size_with_pairwise_correction ppfC6
        (1/5) (4/5) (1/100000000) (1/50000000) 2 = SizeResult.ok 3 ∧
    3 < (get_proportion_test_group_size_with_pairwise_correction ppfC6
        (1/5) (9/10) (1/100000000) (1/50000000) 2).val ∧
    |(2503:ℝ)/5000 - 999/2000| > |(1:ℝ)/500 - 1/1000| ∧
    (get_proportion_test_group_size_with_pairwise_correction ppfC6
        (1/1000) (1/500) (1/20) (4/5) 2).val <
      (get_proportion_test_group_size_with_pairwise_correction ppfC6
        (999/2000) (2503/5000) (1/20) (4/5) 2).val := by
  have hv1 : ppfC6 (199999999/200000000) = 57307/10000 := by
    norm_num [ppfC6, stepOdd]
  have hv2 : ppfC6 (1/50000000) = -(54909/10000) := by
    norm_num [ppfC6, stepOdd]
  have hv3 : ppfC6 (39/40) = 196/100 := by
    norm_num [ppfC6, stepOdd]
  have hv4 : ppfC6 (4/5) = 8416/10000 := by
    norm_num [ppfC6, stepOdd]
  have hsmall := prop_gap_violation_small_power ppfC6 (by rw [hv1]; try norm_num)
    (by rw [hv1]; try norm_num) (by rw [hv2]; try norm_num) (by rw [hv2]; try norm_num)
  have hmoving := prop_gap_violation_moving_p1 ppfC6 (by rw [hv3]; try norm_num)
    (by rw [hv3]; try norm_num) (by rw [hv4]; try norm_num) (by rw [hv4]; try norm_num)
  refine ⟨ppfC6_strictMono, ppfC6_symm,
    ⟨by rw [hv1]; try norm_num, by rw [hv1]; try norm_num⟩,
    ⟨by rw [hv2]; try norm_num, by rw [hv2]; try norm_num⟩,
    ⟨by rw [hv3]; try norm_num, by rw [hv3]; try norm_num⟩,
    ⟨by rw [hv4]; try norm_num, by rw [hv4]; try norm_num⟩, ?_, hsmall.1, hsmall.2, ?_, hmoving⟩
  · rw [show ((9:ℝ)/10 - 1/5) = 7/10 by norm_num, show ((4:ℝ)/5 - 1/5) = 3/5 by norm_num,
      abs_of_pos (by norm_num : (0:ℝ) < 7/10), abs_of_pos (by norm_num : (0:ℝ) < 3/5)]
    norm_num
  · rw [show ((2503:ℝ)/5000 - 999/2000) = 11/10000 by norm_num,
      show ((1:ℝ)/500 - 1/1000) = 1/1000 by norm_num,
      abs_of_pos (by norm_num : (0:ℝ) < 11/10000),
      abs_of_pos (by norm_num : (0:ℝ) < 1/1000)]
    norm_num

/-- C6 (amended): for any strictly monotone, point-symmetric quantile
model and all valid inputs - increasing power weakly increases both
returned group sizes; increasing n_groups weakly increases both; and
increasing |delta| weakly decreases the mean-comparison size.  The
corresponding gap statement for the proportion comparison holds in the
amended form: with p1 fixed, moving p2 further away on the same side
weakly decreases the returned size provided power ≥ 1/2 (for power < 1/2
it can strictly increase, as the counterexample shows). -/
theorem claim_C6_monotonicity (ppf : ℝ → ℝ) (hm : StrictMono ppf)
    (hsym : ∀ x, ppf (1 - x) = -ppf x) :
    (∀ (variance delta alpha power power' : ℝ) (n : ℕ),
      0 < variance → 0 < alpha → alpha < 1 → alpha < power → power ≤ power' → power' < 1 →
      2 ≤ n → delta ≠ 0 →
      (get_t_test_group_size_with_pairwise_correction ppf variance delta alpha power n).val ≤
        (get_t_test_group_size_with_pairwise_correction ppf variance delta alpha power' n).val) ∧
    (∀ (variance delta alpha power : ℝ) (n n' : ℕ),
      0 < variance → 0 < alpha → alpha < 1 → alpha < power → power < 1 →
      2 ≤ n → n ≤ n' → delta ≠ 0 →
      (get_t_test_group_size_with_pairwise_correction ppf variance delta alpha power n).val ≤
        (get_t_test_group_size_with_pairwise_correction ppf variance delta alpha power n').val) ∧
    (∀ (variance delta delta' alpha power : ℝ) (n : ℕ),
      0 < variance → 0 < alpha → alpha < 1 → alpha < power → power < 1 →
      2 ≤ n → delta ≠ 0 → |delta| ≤ |delta'| →
      (get_t_test_group_size_with_pairwise_correction ppf variance delta' alpha power n).val ≤
        (get_t_test_group_size_with_pairwise_correction ppf variance delta alpha power n).val) ∧
    (∀ (p1 p2 alpha power power' : ℝ) (n : ℕ),
      0 < p1 → p1 < 1 → 0 < p2 → p2 < 1 → p1 ≠ p2 → 0 < alpha →
      alpha < power → power ≤ power' → power' < 1 → 2 ≤ n →
      (get_proportion_test_group_size_with_pairwise_correction ppf p1 p2 alpha power n).val ≤
        (get_proportion_test_group_size_with_pairwise_correction ppf p1 p2 alpha power' n).val) ∧
    (∀ (p1 p2 alpha power : ℝ) (n n' : ℕ),
      0 < p1 → p1 < 1 → 0 < p2 → p2 < 1 → p1 ≠ p2 → 0 < alpha →
      alpha < power → power < 1 → 2 ≤ n → n ≤ n' →
      (get_proportion_test_group_size_with_pairwise_correction ppf p1 p2 alpha power n).val ≤
        (get_proportion_test_group_size_with_pairwise_correction ppf p1 p2 alpha power n').val) ∧
    (∀ (p1 p2 p2' alpha power : ℝ) (n : ℕ),
      0 < p1 → p1 < p2 → p2 ≤ p2' → p2' < 1 → 0 < alpha →
      alpha < power → power < 1 → 2 ≤ n → 1/2 ≤ power →
      (get_proportion_test_group_size_with_pairwise_correction ppf p1 p2' alpha power n).val ≤
        (get_proportion_test_group_size_with_pairwise_correction ppf p1 p2 alpha power n).val) := by
  refine ⟨?_, ?_, ?_, ?_, ?_, ?_⟩
  · intro variance delta alpha power power' n hv ha0 ha1 hap hpp hp1 hn hd
    exact mean_val_mono_power hm.monotone hsym hv ha0 ha1 hap hpp hp1 hn hd
  · intro variance delta alpha power n n' hv ha0 ha1 hap hpw1 hn hnn hd
    exact mean_val_mono_groups hm.monotone hsym hv ha0 ha1 hap hpw1 hn hnn hd
  · intro variance delta delta' alpha power n hv ha0 ha1 hap hpw1 hn hd habs
    exact mean_val_anti_delta hv ha0 ha1 hap hpw1 hn hd habs
  · intro p1 p2 alpha power power' n hp10 hp11 hp20 hp21 hne ha0 hap hpp hp1 hn
    exact prop_val_mono_power hm.monotone hsym hp10 hp11 hp20 hp21 hne ha0 hap hpp hp1 hn
  · intro p1 p2 alpha power n n' hp10 hp11 hp20 hp21 hne ha0 hap hpw1 hn hnn
    exact prop_val_mono_groups hm.monotone hsym hp10 hp11 hp20 hp21 hne ha0 hap hpw1 hn hnn
  · intro p1 p2 p2' alpha power n hp10 h12 h22 h21 ha0 hap hpw1 hn hpw
    exact prop_val_anti_gap hm.monotone hsym hp10 h12 h22 h21 ha0 hap hpw1 hn hpw

/-- Witness for the amended C6: all six monotonicity statements
instantiated at concrete valid inputs with the linear quantile model. -/
theorem claim_C6_monotonicity_witness :
    ((get_t_test_group_size_with_pairwise_correction (linQuantile 1) 1 1 (1/4) (1/2) 2).val ≤
      (get_t_test_group_size_with_pairwise_correction (linQuantile 1) 1 1 (1/4) (3/4) 2).val) ∧
    ((get_t_test_group_size_with_pairwise_correction (linQuantile 1) 1 1 (1/4) (1/2) 2).val ≤
      (get_t_test_group_size_with_pairwise_correction (linQuantile 1) 1 1 (1/4) (1/2) 3).val) ∧
    ((get_t_test_group_size_with_pairwise_correction (linQuantile 1) 1 2 (1/4) (1/2) 2).val ≤
      (get_t_test_group_size_with_pairwise_correction (linQuantile 1) 1 1 (1/4) (1/2) 2).val) ∧
    ((get_proportion_test_group_size_with_pairwise_correction (linQuantile 1)
        (1/4) (1/2) (1/4) (1/2) 2).val ≤
      (get_proportion_test_group_size_with_pairwise_correction (linQuantile 1)
        (1/4) (1/2) (1/4) (3/4) 2).val) ∧
    ((get_proportion_test_group_size_with_pairwise_correction (linQuantile 1)
        (1/4) (1/2) (1/4) (1/2) 2).val ≤
      (get_proportion_test_group_size_with_pairwise_correction (linQuantile 1)
        (1/4) (1/2) (1/4) (1/2) 3).val) ∧
    ((get_proportion_test_group_size_with_pairwise_correction (linQuantile 1)
        (1/4) (3/4) (1/4) (1/2) 2).val ≤
      (get_proportion_test_group_size_with_pairwise_correction (linQuantile 1)
        (1/4) (1/2) (1/4) (1/2) 2).val) := by
  have h := claim_C6_monotonicity (linQuantile 1) (linQuantile_strictMono one_pos)
    (linQuantile_symm 1)
  refine ⟨?_, ?_, ?_, ?_, ?_, ?_⟩
  · exact h.1 1 1 (1/4) (1/2) (3/4) 2 (by norm_num) (by norm_num) (by norm_num)
      (by norm_num) (by norm_num) (by norm_num) (by norm_num) (by norm_num)
  · exact h.2.1 1 1 (1/4) (1/2) 2 3 (by norm_num) (by norm_num) (by norm_num)
      (by norm_num) (by norm_num) (by norm_num) (by norm_num) (by norm_num)
  · exact h.2.2.1 1 1 2 (1/4) (1/2) 2 (by norm_num) (by norm_num) (by norm_num)
      (by norm_num) (by norm_num) (by norm_num) (by norm_num)
      (by rw [abs_of_pos (by norm_num : (0:ℝ) < 1), abs_of_pos (by norm_num : (0:ℝ) < 2)]
          norm_num)
  · exact h.2.2.2.1 (1/4) (1/2) (1/4) (1/2) (3/4) 2 (by norm_num) (by norm_num)
      (by norm_num) (by norm_num) (by norm_num) (by norm_num) (by norm_num) (by norm_num)
      (by norm_num) (by norm_num)
  · exact h.2.2.2.2.1 (1/4) (1/2) (1/4) (1/2) 2 3 (by norm_num) (by norm_num)
      (by norm_num) (by norm_num) (by norm_num) (by norm_num) (by norm_num) (by norm_num)
      (by norm_num) (by norm_num)
  · exact h.2.2.2.2.2 (1/4) (1/2) (3/4) (1/4) (1/2) 2 (by norm_num) (by norm_num)
      (by norm_num) (by norm_num) (by norm_num) (by norm_num) (by norm_num) (by norm_num)
      (by norm_num)

end Experimentation
